import Mathlib

/-!
Verification development for the DJI credential extractor scripts
(`dji_credentials_extractor.py`, the "Home" script, and
`dji_fly_credentials_extractor.py`, the "Fly" script).

The development shallowly embeds the decision-dense core of both scripts:

* the Python values stored in the `credentials` dict (`PyVal`, `Creds`);
* the result parsers inside `extract_credentials` of each script;
* the batched remote extraction command (`SCmd` / `run`), transcribing the
  shell connectors (`&&` in Home, `;` in Fly) and the final command of each
  pipeline (`head`, `sed`, `grep`, `echo`, `rm`), with each matcher
  pipeline's printed lines abstracted as an environment `String → List String`;
* the `test_api` enrichment stage of each script, with the remote API
  responses abstracted as optional decoded response records (`none` models a
  network/JSON exception);
* the `start_emulator` readiness polling loop (identical in both scripts),
  with the per-poll channel observations abstracted as functions of the poll
  index and time measured in the seconds consumed by the `time.sleep(5)`
  calls;
* the APK-location logic of `install_apk` of each script.
-/

/-- A Python value as stored in the `credentials` dict of either script. -/
inductive PyVal where
  | vStr (s : String)
  | vInt (n : Int)
  | vBool (b : Bool)
  | vList (ls : List String)
  | vNone
  deriving DecidableEq, Repr

/-- The `credentials` dict: an insertion-ordered association list, as CPython
dicts are. -/
abbrev Creds := List (String × PyVal)

/-- Python dict assignment `d[k] = v`: updates the existing entry in place,
otherwise appends at the end. -/
def dictSet : Creds → String → PyVal → Creds
  | [], k, v => [(k, v)]
  | (k', v') :: d, k, v =>
    if k' = k then (k, v) :: d else (k', v') :: dictSet d k v

/-- Python `k in d` / `d.get(k)` lookup (keys are unique by construction). -/
def dictGet? : Creds → String → Option PyVal
  | [], _ => none
  | (k', v') :: d, k => if k' = k then some v' else dictGet? d k

/-- Python `d.get(k)` (defaulting to `None`). -/
def dictGet (d : Creds) (k : String) : PyVal :=
  (dictGet? d k).getD .vNone

/-- Python truthiness of the values a `credentials` dict can hold. -/
def truthy : PyVal → Bool
  | .vStr s => s ≠ ""
  | .vInt n => n ≠ 0
  | .vBool b => b
  | .vList ls => !ls.isEmpty
  | .vNone => false

/-- Python `a or b` restricted to the values that flow through it here. -/
def pyOr (a b : PyVal) : PyVal := if truthy a then a else b

/-- Python `str(v)` for the values `str` is applied to in the scripts. -/
def pyStr : PyVal → String
  | .vStr s => s
  | .vInt n => toString n
  | .vBool b => if b then "True" else "False"
  | .vList _ => ""
  | .vNone => "None"

/-- `needle` occurs as a contiguous sublist of `hay`. -/
def containsSub : List Char → List Char → Bool
  | hay, needle =>
    if needle.isPrefixOf hay then true
    else
      match hay with
      | [] => false
      | _ :: t => containsSub t needle

/-- Python substring test `pat in s`. -/
def strContains (s pat : String) : Bool := containsSub s.toList pat.toList

/-- The characters Python `str.strip()` removes by default. -/
def isPyWs (c : Char) : Bool :=
  c = ' ' || c = '\t' || c = '\n' || c = '\r' || c = '\x0b' || c = '\x0c'

/-- Python `s.strip()`. -/
def pyStrip (s : String) : String :=
  ⟨((s.toList.dropWhile isPyWs).reverse.dropWhile isPyWs).reverse⟩

/-- Python `str.lower()` on one character (ASCII, which is all the parsers
lowercase: section header names are ASCII). -/
def lowerChar (c : Char) : Char :=
  if 'A' ≤ c ∧ c ≤ 'Z' then Char.ofNat (c.toNat + 32) else c

/-- Python `s.lower()`. -/
def pyLower (s : String) : String := ⟨s.toList.map lowerChar⟩

/-- Python `s.startswith(pre)`. -/
def pyStartsWith (s pre : String) : Bool := pre.toList.isPrefixOf s.toList

/-- Python `s.endswith(suf)`. -/
def pyEndsWith (s suf : String) : Bool := suf.toList.isSuffixOf s.toList

/-- Python `s.split('\n')`. -/
def pySplitNl : List Char → List String
  | [] => [""]
  | c :: t =>
    if c = '\n' then "" :: pySplitNl t
    else
      match pySplitNl t with
      | r :: rs => ⟨c :: r.toList⟩ :: rs
      | [] => [⟨[c]⟩]

/-- The section-header test of both result parsers:
`line.startswith("=== ") and line.endswith(" ===")`. -/
def isHeader (s : String) : Bool := pyStartsWith s "=== " && pyEndsWith s " ==="

/-- The field name a header line carries: `line[4:-4].lower()`. -/
def headerKey (s : String) : String :=
  pyLower ⟨(s.toList.drop 4).take (s.toList.length - 8)⟩

namespace DjiHome

/-- The result parser of `extract_credentials` in the Home script
(`dji_credentials_extractor.py:546-555`): tracks `current_key`, records the
first non-empty line of a section and then resets `current_key` to `None`. -/
def parseGo : List String → Option String → Creds → Creds
  | [], _, creds => creds
  | l :: ls, cur, creds =>
    let line := pyStrip l
    if isHeader line then parseGo ls (some (headerKey line)) creds
    else
      match cur with
      | some k =>
        if line ≠ "" ∧ k ≠ "" then parseGo ls none (dictSet creds k (.vStr line))
        else parseGo ls cur creds
      | none => parseGo ls cur creds

/-- `output.split('\n')` fed to the Home result parser. -/
def parse (out : List String) : Creds := parseGo out none []

/-- The fields declared by the Home extraction batch (lowercased section
header names, in batch order). -/
def fields : List String :=
  ["user_token", "user_id", "user_email", "user_name",
   "device_sn", "pair_uuid", "iot_url", "device_uuid"]

end DjiHome

namespace DjiFly

/-- The list-typed fields of the Fly result parser (`list_keys`). -/
def listKeys : List String := ["api_urls", "device_uuid"]

/-- The result parser of `extract_credentials` in the Fly script
(`dji_fly_credentials_extractor.py:607-624`): `current_key` is not reset;
list keys accumulate distinct lines, scalar keys keep the first value.
(The `_ => []` default of the accumulated list mirrors
`credentials.get(current_key, [])` on an absent key; a present non-list
value for a list key cannot arise, since list keys are only ever written
by the list branch.) -/
def parseGo : List String → Option String → Creds → Creds
  | [], _, creds => creds
  | l :: ls, cur, creds =>
    let line := pyStrip l
    if isHeader line then parseGo ls (some (headerKey line)) creds
    else
      match cur with
      | some k =>
        if line ≠ "" ∧ k ≠ "" then
          if k ∈ listKeys then
            let lst :=
              match dictGet? creds k with
              | some (.vList ls0) => ls0
              | _ => []
            let lst := if line ∈ lst then lst else lst ++ [line]
            parseGo ls cur (dictSet creds k (.vList lst))
          else
            if (dictGet? creds k).isSome then parseGo ls cur creds
            else parseGo ls cur (dictSet creds k (.vStr line))
        else parseGo ls cur creds
      | none => parseGo ls cur creds

/-- `output.split('\n')` fed to the Fly result parser. -/
def parse (out : List String) : Creds := parseGo out none []

/-- The fields declared by the Fly extraction batch (lowercased section
header names, in batch order). -/
def fields : List String :=
  ["user_token", "user_id", "user_email", "user_name", "drone_sn",
   "drone_model", "account_token", "openapi_token", "api_urls", "device_uuid"]

end DjiFly

/-! ## The batched extraction command

The remote command issued by `extract_credentials` is a single shell batch.
`SCmd` transcribes its structure: the connector between segments (`&&` in the
Home script, `;` in the Fly script, `||` inside the Home `DEVICE_SN` group)
and the final command of every pipeline, which is what determines the
pipeline's exit status (`echo`/`head`/`sed` always exit 0; a trailing
`grep` exits 0 iff it printed at least one match).  The lines each matcher
pipeline prints are abstracted as an environment `String → List String`
keyed by a pipeline identifier. -/

/-- One node of the extraction shell batch. -/
inductive SCmd where
  | echoLine (s : String)
  | pipeHead (id : String) (n : Nat)
  | pipeSed (id : String)
  | pipeGrep (id : String)
  | rmHeap
  | cdTmp
  | andThen (a b : SCmd)
  | orElse (a b : SCmd)
  | seqThen (a b : SCmd)

/-- Shell semantics of a batch: exit status (`true` = 0), printed lines, and
whether `rm -f heap.bin` was executed on this run. -/
def run : SCmd → (String → List String) → Bool × List String × Bool
  | .echoLine s, _ => (true, [s], false)
  | .pipeHead id n, env => (true, (env id).take n, false)
  | .pipeSed id, env => (true, env id, false)
  | .pipeGrep id, env => (!(env id).isEmpty, env id, false)
  | .rmHeap, _ => (true, [], true)
  | .cdTmp, _ => (true, [], false)
  | .andThen a b, env =>
    if (run a env).1 then
      ((run b env).1, (run a env).2.1 ++ (run b env).2.1,
        (run a env).2.2 || (run b env).2.2)
    else (false, (run a env).2.1, (run a env).2.2)
  | .orElse a b, env =>
    if (run a env).1 then (true, (run a env).2.1, (run a env).2.2)
    else
      ((run b env).1, (run a env).2.1 ++ (run b env).2.1,
        (run a env).2.2 || (run b env).2.2)
  | .seqThen a b, env =>
    ((run b env).1, (run a env).2.1 ++ (run b env).2.1,
      (run a env).2.2 || (run b env).2.2)

@[simp] theorem run_echoLine : run (.echoLine s) env = (true, [s], false) := rfl
@[simp] theorem run_pipeHead :
    run (.pipeHead i n) env = (true, (env i).take n, false) := rfl
@[simp] theorem run_pipeSed : run (.pipeSed i) env = (true, env i, false) := rfl
@[simp] theorem run_pipeGrep :
    run (.pipeGrep i) env = (!(env i).isEmpty, env i, false) := rfl
@[simp] theorem run_rmHeap : run .rmHeap env = (true, [], true) := rfl
@[simp] theorem run_cdTmp : run .cdTmp env = (true, [], false) := rfl
@[simp] theorem run_andThen :
    run (.andThen a b) env =
      if (run a env).1 then
        ((run b env).1, (run a env).2.1 ++ (run b env).2.1,
          (run a env).2.2 || (run b env).2.2)
      else (false, (run a env).2.1, (run a env).2.2) := by
  conv => lhs; rw [run]
@[simp] theorem run_orElse :
    run (.orElse a b) env =
      if (run a env).1 then (true, (run a env).2.1, (run a env).2.2)
      else
        ((run b env).1, (run a env).2.1 ++ (run b env).2.1,
          (run a env).2.2 || (run b env).2.2) := by
  conv => lhs; rw [run]
@[simp] theorem run_seqThen :
    run (.seqThen a b) env =
      ((run b env).1, (run a env).2.1 ++ (run b env).2.1,
        (run a env).2.2 || (run b env).2.2) := by
  conv => lhs; rw [run]

/-- Left-associated `&&` chain, as the shell parses `a && b && c`. -/
def andChain (c : SCmd) (cs : List SCmd) : SCmd := cs.foldl .andThen c

/-- Left-associated `;` chain. -/
def seqChain (c : SCmd) (cs : List SCmd) : SCmd := cs.foldl .seqThen c

namespace DjiHome

/-- The Home extraction batch (`dji_credentials_extractor.py:518-537`).
Every segment is joined by `&&`; each matcher pipeline ends in `head -1`
except the `DEVICE_SN` group, whose structured variant ends in a bare
`grep -oE` and falls back (`||`) to the frequency heuristic ending in `sed`;
the batch ends with `rm -f heap.bin`. -/
def extractBatch : SCmd :=
  andChain .cdTmp
    [.echoLine "=== USER_TOKEN ===", .pipeHead "home_user_token" 1,
     .echoLine "=== USER_ID ===", .pipeHead "home_user_id" 1,
     .echoLine "=== USER_EMAIL ===", .pipeHead "home_user_email" 1,
     .echoLine "=== USER_NAME ===", .pipeHead "home_user_name" 1,
     .echoLine "=== DEVICE_SN ===",
     .orElse (.pipeGrep "home_device_sn_structured")
       (.pipeSed "home_device_sn_heuristic"),
     .echoLine "=== PAIR_UUID ===", .pipeHead "home_pair_uuid" 1,
     .echoLine "=== IOT_URL ===", .pipeHead "home_iot_url" 1,
     .echoLine "=== DEVICE_UUID ===", .pipeHead "home_device_uuid" 1,
     .rmHeap]

end DjiHome

namespace DjiFly

/-- The Fly extraction batch (`dji_fly_credentials_extractor.py:552-582`).
Every segment is joined by `;` (deliberately non-halting); fallback matcher
pipelines for one field are separate `;` segments; pipelines end in `head`,
`sed` or a bare `grep -oE` as in the source; the batch ends with
`rm -f heap.bin`. -/
def extractBatch : SCmd :=
  seqChain .cdTmp
    [.echoLine "=== USER_TOKEN ===", .pipeHead "fly_user_token" 1,
     .echoLine "=== USER_ID ===", .pipeGrep "fly_user_id_user_id",
     .pipeGrep "fly_user_id_uid", .pipeGrep "fly_user_id_member_uid",
     .echoLine "=== USER_EMAIL ===", .pipeHead "fly_user_email" 1,
     .echoLine "=== USER_NAME ===", .pipeSed "fly_user_name_nickname",
     .pipeHead "fly_user_name_djiuser" 1,
     .echoLine "=== DRONE_SN ===", .pipeGrep "fly_drone_sn_sn",
     .pipeGrep "fly_drone_sn_serial_number", .pipeGrep "fly_drone_sn_device_sn",
     .echoLine "=== DRONE_MODEL ===", .pipeSed "fly_drone_model_model_name",
     .pipeSed "fly_drone_model_product_type", .pipeHead "fly_drone_model_dji" 1,
     .echoLine "=== ACCOUNT_TOKEN ===", .pipeSed "fly_account_token",
     .echoLine "=== OPENAPI_TOKEN ===", .pipeSed "fly_openapi_token",
     .echoLine "=== API_URLS ===", .pipeHead "fly_api_urls" 20,
     .echoLine "=== DEVICE_UUID ===", .pipeHead "fly_device_uuid" 3,
     .rmHeap]

end DjiFly

example :
    DjiHome.parse ["=== USER_TOKEN ===", "US_abc", "junk"] =
      [("user_token", .vStr "US_abc")] := by decide

example :
    DjiFly.parse ["=== API_URLS ===", "u1", "u1", "u2"] =
      [("api_urls", .vList ["u1", "u2"])] := by decide

/-! ## The readiness polling loop of `start_emulator`

The polling loop is identical in both scripts
(`dji_credentials_extractor.py:336-363`, `dji_fly_credentials_extractor.py:
351-377`).  Time is measured in the seconds consumed by the `time.sleep(5)`
calls, so the `while time.time() - start_time < max_wait` guard at poll
number `n` reads `5 * n < 420`, i.e. the loop has at most `84` polls; the
structural parameter `rem` is the number of polls still allowed
(`rem = 84 - n`), so the `rem = 0` base case is exactly the `while` guard
failing.  The per-poll channel observations (`proc.poll()`, the substring
tests on the `adb devices` output, `getprop sys.boot_completed`) are
abstracted as functions of the poll number. -/

/-- What the channel reports at each poll of the readiness loop. -/
structure EmuEnv where
  procExited : Nat → Bool
  devEmu : Nat → Bool
  devDevice : Nat → Bool
  devOffline : Nat → Bool
  bootCompleted : Nat → Option String

/-- The three ways the polling loop can end. -/
inductive LoopOutcome where
  | ready
  | died
  | timeout
  deriving DecidableEq, Repr

/-- One poll of the readiness loop; returns outcome and total elapsed sleep
time.  `proc.poll() is not None` → `died`; devices-list and offline checks;
`sys.boot_completed == "1"` → one extra grace sleep, then `ready`; otherwise
sleep and poll again. -/
def emuLoopAux (env : EmuEnv) : Nat → Nat → LoopOutcome × Nat
  | 0, n => (.timeout, 5 * n)
  | rem + 1, n =>
    if env.procExited n then (.died, 5 * n)
    else if env.devEmu n && env.devDevice n then
      if env.devOffline n then emuLoopAux env rem (n + 1)
      else
        match env.bootCompleted n with
        | some b => if b ≠ "" ∧ pyStrip b = "1" then (.ready, 5 * n + 5)
                    else emuLoopAux env rem (n + 1)
        | none => emuLoopAux env rem (n + 1)
    else emuLoopAux env rem (n + 1)

/-- The full polling loop: `max_wait = 420`, interval 5, so 84 polls. -/
def emuLoop (env : EmuEnv) : LoopOutcome × Nat := emuLoopAux env 84 0

/-- Environment of one `start_emulator` run: the pre-loop filesystem checks,
the initial `adb devices` query, and the polling-loop observations. -/
structure StartEnv where
  sysImageOk : Bool
  emuBinOk : Bool
  initDevEmu : Bool
  initDevDevice : Bool
  loop : EmuEnv

/-- Outcome of a full `start_emulator` run.  `noImage`/`noBinary` are the
early `return False` checks; `alreadyRunning` is the pre-loop
`"emulator" in devices and "device" in devices` short-circuit returning
`True` without launching or polling. -/
inductive StartOutcome where
  | noImage
  | noBinary
  | alreadyRunning
  | ready
  | died
  | timeout
  deriving DecidableEq, Repr

/-- `start_emulator`, second component = elapsed polling-loop sleep time. -/
def start_emulator (e : StartEnv) : StartOutcome × Nat :=
  if !e.sysImageOk then (.noImage, 0)
  else if !e.emuBinOk then (.noBinary, 0)
  else if e.initDevEmu && e.initDevDevice then (.alreadyRunning, 0)
  else
    match emuLoop e.loop with
    | (.ready, t) => (.ready, t)
    | (.died, t) => (.died, t)
    | (.timeout, t) => (.timeout, t)

/-! ## APK location inside `install_apk` -/

namespace DjiHome

/-- `"dji" in f.name.lower() and "home" in f.name.lower()`. -/
def fuzzyApk (f : String) : Bool :=
  strContains (pyLower f) "dji" && strContains (pyLower f) "home"

/-- The APK-location logic of `install_apk`
(`dji_credentials_extractor.py:383-406`): exact name `com.dji.home.apk`,
else the first fuzzy glob match, else the first `*.apk` file at all;
`none` models the `sys.exit(1)` when the directory has no APK.
`files` is the `SCRIPT_DIR.glob("*.apk")` listing in directory order. -/
def install_apk (files : List String) : Option String :=
  if "com.dji.home.apk" ∈ files then some "com.dji.home.apk"
  else
    match files.find? fuzzyApk with
    | some f => some f
    | none =>
      match files with
      | [] => none
      | f :: _ => some f

end DjiHome

namespace DjiFly

/-- `"dji" in name_lower and ("fly" in name_lower or "go.v5" in name_lower)`. -/
def fuzzyApk (f : String) : Bool :=
  strContains (pyLower f) "dji" &&
    (strContains (pyLower f) "fly" || strContains (pyLower f) "go.v5")

/-- The APK-location logic of `install_apk`
(`dji_fly_credentials_extractor.py:396-424`): exact name `dji.go.v5.apk`,
else the first fuzzy glob match, else `sys.exit(1)` — the Fly script never
falls back to an unrelated APK. -/
def install_apk (files : List String) : Option String :=
  if "dji.go.v5.apk" ∈ files then some "dji.go.v5.apk"
  else
    match files.find? fuzzyApk with
    | some f => some f
    | none => none

end DjiFly

/-! ## Control flow of `extract_credentials` and `test_api` -/

namespace DjiHome

/-- Channel observations of one Home `extract_credentials` run.
`run_command` returns the stripped stdout, or `None` on failure/timeout. -/
structure ExtractEnv where
  pidOut : Option String
  fileCheck : Option String
  batchOut : Option String

/-- Truthiness of a `run_command` result (`None` and `""` are falsy). -/
def truthyS : Option String → Bool
  | none => false
  | some s => s ≠ ""

/-- The decision structure of `extract_credentials`
(`dji_credentials_extractor.py:458-565`): missing pid → `None`; failed
`ls` check or `"No such file"` in it → `None`; empty batch output →
`None`; otherwise parse, and return the record iff `user_token` is truthy. -/
def extract_credentials (e : ExtractEnv) : Option Creds :=
  if !truthyS e.pidOut then none
  else
    match e.fileCheck with
    | none => none
    | some fc =>
      if fc = "" then none
      else if strContains fc "No such file" then none
      else
        match e.batchOut with
        | none => none
        | some out =>
          if out = "" then none
          else
            let creds := parse (pySplitNl out.toList)
            if truthy (dictGet creds "user_token") then some creds else none

/-- `data["data"]` of the auth/token response. -/
structure MqttData where
  mqtt_domain : PyVal
  mqtt_port : PyVal
  user_uuid : PyVal

/-- Decoded `users/auth/token` response: `resultCode` is
`data.get("result", {}).get("code")`; `dataField = none` models a missing
`"data"` key (the `data["data"]` KeyError lands in the `except` block). -/
structure AuthResp where
  resultCode : Option Int
  dataField : Option MqttData

/-- One device object of the `homes` response. -/
structure HomeDevice where
  sn : PyVal
  device_sn : PyVal
  name : Option PyVal

/-- One home object of the `homes` response. -/
structure HomeEntry where
  devices : List HomeDevice

/-- Decoded `homes` response. -/
structure HomesResp where
  resultCode : Option Int
  homes : List HomeEntry

/-- The nested `for home in homes: for device in devices:` search with its
two `break`s: the first device (home-major order) whose
`device.get("sn") or device.get("device_sn")` is truthy. -/
def firstDevice : List HomeEntry → Option HomeDevice
  | [] => none
  | h :: hs =>
    match h.devices.find? (fun d => truthy (pyOr d.sn d.device_sn)) with
    | some d => some d
    | none => firstDevice hs

/-- The auth/token block of `test_api`: on success it sets the three MQTT
fields and `api_working = True`; on a non-zero code or an exception it sets
`api_working = False`. -/
def blockAuth (creds : Creds) (r1 : Option AuthResp) : Creds :=
  match r1 with
  | none => dictSet creds "api_working" (.vBool false)
  | some a =>
    if a.resultCode = some 0 then
      match a.dataField with
      | none => dictSet creds "api_working" (.vBool false)
      | some md =>
        dictSet (dictSet (dictSet (dictSet creds
          "mqtt_domain" md.mqtt_domain)
          "mqtt_port" md.mqtt_port)
          "mqtt_user_uuid" md.user_uuid)
          "api_working" (.vBool true)
    else dictSet creds "api_working" (.vBool false)

/-- The homes block of `test_api`: entered only when `device_sn` is still
falsy; on success it records the first discovered device. -/
def blockHomes (c1 : Creds) (r2 : Option HomesResp) : Creds :=
  if truthy (dictGet c1 "device_sn") then c1
  else
    match r2 with
    | none => c1
    | some h =>
      if h.resultCode = some 0 then
        match firstDevice h.homes with
        | none => c1
        | some d =>
          dictSet (dictSet c1 "device_sn" (pyOr d.sn d.device_sn))
            "device_name" (d.name.getD (.vStr ""))
      else c1

/-- `test_api` of the Home script (`dji_credentials_extractor.py:568-642`).
`r1`/`r2` are the two HTTP responses; `none` models a network/JSON
exception inside the corresponding `try` block. -/
def test_api (creds : Creds) (r1 : Option AuthResp) (r2 : Option HomesResp) : Creds :=
  if !truthy (dictGet creds "user_token") then creds
  else blockHomes (blockAuth creds r1) r2

/-- The tail of `main` after `extract_credentials`
(`dji_credentials_extractor.py:777-787`): a falsy result exits 1, a truthy
dict proceeds through `test_api`/`save_credentials` and the run exits 0. -/
def mainTail (r : Option Creds) : Nat :=
  match r with
  | none => 1
  | some c => if c.isEmpty then 1 else 0

end DjiHome

namespace DjiFly

/-- Result of the `subprocess.run(["adb", "shell"], ...)` call issuing the
Fly extraction batch: it either completes with a stdout, or raises
`subprocess.TimeoutExpired`. -/
inductive BatchRun where
  | completed (stdout : String)
  | timedOut

/-- Channel observations of one Fly `extract_credentials` run. -/
structure ExtractEnv where
  pidOut : Option String
  fileCheck : Option String
  batch : BatchRun

/-- The decision structure of `extract_credentials`
(`dji_fly_credentials_extractor.py:491-646`).  `Except.error ()` models an
uncaught exception: on `TimeoutExpired`, `output` is set to `None` but
`proc` was never bound, so the diagnostic `if proc and proc.stderr:` raises
`NameError`. -/
def extract_credentials (e : ExtractEnv) : Except Unit (Option Creds) :=
  if !DjiHome.truthyS e.pidOut then .ok none
  else
    match e.fileCheck with
    | none => .ok none
    | some fc =>
      if fc = "" then .ok none
      else if strContains fc "No such file" then .ok none
      else
        match e.batch with
        | .timedOut => .error ()
        | .completed out =>
          let o := pyStrip out
          if o = "" then .ok none
          else
            let creds := parse (pySplitNl o.toList)
            if truthy (dictGet creds "user_token") then .ok (some creds)
            else .ok none

/-- `member = data.get("data", data)` of the member/info response. -/
structure Member where
  nickname : PyVal
  uid : PyVal
  email : PyVal

/-- Decoded `member/info` response: the success test is
`data.get("result", {}).get("code") == 0 or data.get("code") == 0`. -/
structure MemberResp where
  resultCode : Option Int
  code : Option Int
  member : Member

/-- One device object of the `devices` response. -/
structure Device where
  sn : PyVal
  serial_number : PyVal
  model_name : PyVal
  product_type : PyVal
  name : PyVal

/-- Decoded `devices` response; `devices = none` models
`data.get("data", {})` not being a list (the `isinstance` check fails). -/
structure DevResp where
  resultCode : Option Int
  code : Option Int
  devices : Option (List Device)

/-- Decoded flight-records response; `flightsCount = none` models an
exception while evaluating the `flights` expression, `some n` the computed
`count` (`len(flights) if isinstance(flights, list) else 0`). -/
structure FlightResp where
  status200 : Bool
  resultCode : Option Int
  code : Option Int
  flightsCount : Option Nat

/-- The member/info block of `test_api`: on success it sets
`account_verified` and overwrites `user_name`/`user_id`/`user_email`
whenever the member object carries truthy values. -/
def blockMember (c : Creds) (r : Option MemberResp) : Creds :=
  match r with
  | none => c
  | some a =>
    if a.resultCode = some 0 ∨ a.code = some 0 then
      let c := dictSet c "account_verified" (.vBool true)
      let c := if truthy a.member.nickname then
                 dictSet c "user_name" a.member.nickname else c
      let c := if truthy a.member.uid then
                 dictSet c "user_id" (.vStr (pyStr a.member.uid)) else c
      if truthy a.member.email then dictSet c "user_email" a.member.email else c
    else c

/-- The device-loop body of `test_api`: no `break`; `drone_sn` is written
only when still falsy, `drone_model` is overwritten for every device with a
truthy serial number and truthy model. -/
def devLoop : Creds → List Device → Creds
  | c, [] => c
  | c, d :: ds =>
    let sn := pyOr d.sn d.serial_number
    let model := pyOr (pyOr d.model_name d.product_type) d.name
    let c' :=
      if truthy sn then
        let c1 := if !truthy (dictGet c "drone_sn") then dictSet c "drone_sn" sn
                  else c
        if truthy model then dictSet c1 "drone_model" model else c1
      else c
    devLoop c' ds

/-- The devices block of `test_api`. -/
def blockDevices (c : Creds) (r : Option DevResp) : Creds :=
  match r with
  | none => c
  | some a =>
    if a.resultCode = some 0 ∨ a.code = some 0 then
      match a.devices with
      | some ds => devLoop c ds
      | none => c
    else c

/-- The flight-records block of `test_api`. -/
def blockFlights (c : Creds) (r : Option FlightResp) : Creds :=
  match r with
  | none => dictSet c "flight_records_accessible" (.vBool false)
  | some a =>
    if a.status200 ∧ (a.resultCode = some 0 ∨ a.code = some 0) then
      match a.flightsCount with
      | none => dictSet c "flight_records_accessible" (.vBool false)
      | some n =>
        dictSet (dictSet c "flight_records_accessible" (.vBool true))
          "recent_flights_count" (.vInt n)
    else dictSet c "flight_records_accessible" (.vBool false)

/-- `test_api` of the Fly script
(`dji_fly_credentials_extractor.py:649-741`): the three enrichment blocks in
order, each wrapped in its own `try`. -/
def test_api (creds : Creds) (m : Option MemberResp) (d : Option DevResp)
    (f : Option FlightResp) : Creds :=
  if !truthy (dictGet creds "user_token") then creds
  else blockFlights (blockDevices (blockMember creds m) d) f

/-- The tail of `main` after `extract_credentials`
(`dji_fly_credentials_extractor.py:905-915`). -/
def mainTail (r : Option Creds) : Nat :=
  match r with
  | none => 1
  | some c => if c.isEmpty then 1 else 0

end DjiFly

/-! ## Specification-side description of the delimited output

`tagged` walks the output the way the spec describes the parsers: it labels
every recorded candidate line with the field of the section it appears in
("tracks the current field per section header").  `sectionLines out k` is
then the stream of non-empty stripped lines belonging to field `k`, in
order of appearance. -/

/-- Tag each surviving line with the field of its section. -/
def tagged : List String → Option String → List (String × String)
  | [], _ => []
  | l :: ls, cur =>
    let line := pyStrip l
    if isHeader line then tagged ls (some (headerKey line))
    else
      match cur with
      | some k =>
        if line ≠ "" ∧ k ≠ "" then (k, line) :: tagged ls cur
        else tagged ls cur
      | none => tagged ls cur

/-- The non-empty stripped lines of field `k`'s section(s), in order. -/
def sectionLines (out : List String) (k : String) : List String :=
  (tagged out none).filterMap fun p => if p.1 = k then some p.2 else none

/-- `if line not in lst: lst.append(line)`. -/
def pushNew (acc : List String) (l : String) : List String :=
  if l ∈ acc then acc else acc ++ [l]

/-- Order-preserving de-duplication that keeps the first occurrence, the way
the Fly parser accumulates a list field. -/
def firstDedup (acc : List String) (ls : List String) : List String :=
  ls.foldl pushNew acc

/-- The accumulated list the Fly parser reads back for a list key:
`credentials.get(current_key, [])`. -/
def curList (creds : Creds) (k : String) : List String :=
  match dictGet? creds k with
  | some (.vList ls) => ls
  | _ => []

/-! ## Dictionary lemmas -/

@[simp] theorem dictGet?_set_self (d : Creds) (k : String) (v : PyVal) :
    dictGet? (dictSet d k v) k = some v := by
  induction d with
  | nil => simp [dictSet, dictGet?]
  | cons p d ih =>
    obtain ⟨k', v'⟩ := p
    by_cases h : k' = k <;> simp [dictSet, dictGet?, h, ih]

theorem dictGet?_set_ne (d : Creds) {k k' : String} (v : PyVal) (h : k' ≠ k) :
    dictGet? (dictSet d k v) k' = dictGet? d k' := by
  induction d with
  | nil => simp [dictSet, dictGet?, Ne.symm h]
  | cons p d ih =>
    obtain ⟨k₀, v₀⟩ := p
    by_cases h₀ : k₀ = k
    · subst h₀
      simp [dictSet, dictGet?, Ne.symm h]
    · by_cases h₁ : k₀ = k' <;> simp [dictSet, dictGet?, h₀, h₁, h, ih]

@[simp] theorem dictSet_ne_nil (d : Creds) (k : String) (v : PyVal) :
    (dictSet d k v).isEmpty = false := by
  cases d with
  | nil => simp [dictSet]
  | cons p d =>
    obtain ⟨k', v'⟩ := p
    by_cases h : k' = k <;> simp [dictSet, h]

theorem dictGet?_isSome_ne_nil {d : Creds} {k : String}
    (h : (dictGet? d k).isSome) : d.isEmpty = false := by
  cases d with
  | nil => simp [dictGet?] at h
  | cons p d => simp


/-! ## Claim C1 and C3: the extraction batch -/

/-- C1: whenever the extraction batch runs (i.e. the memory copy succeeded
and the channel delivers the batch), `rm -f heap.bin` is executed regardless
of which matcher pipelines produced output: in the Home script every `&&`
segment before `rm` ends in `echo`/`head`/`sed` (exit 0 on empty input) or
in a `||` group whose fallback ends in `sed`, and in the Fly script the
connector is `;`. -/
theorem c1_capture_cleanup (env : String → List String) :
    (run DjiHome.extractBatch env).2.2 = true ∧
      (run DjiFly.extractBatch env).2.2 = true := by
  constructor
  · cases henv : env "home_device_sn_structured" with
    | nil => simp [DjiHome.extractBatch, andChain, List.foldl, henv]
    | cons a t => simp [DjiHome.extractBatch, andChain, List.foldl, henv]
  · simp [DjiFly.extractBatch, seqChain, List.foldl]

/-- C3: for every match environment, the batch prints the delimited section
header of every declared field, and a field with no match never prevents the
extraction of the following fields: the printed output is exactly the
interleaving of all headers with each pipeline's lines. -/
theorem c3_sections_non_halting (env : String → List String) :
    (run DjiHome.extractBatch env).2.1 =
      ["=== USER_TOKEN ==="] ++ (env "home_user_token").take 1 ++
      ["=== USER_ID ==="] ++ (env "home_user_id").take 1 ++
      ["=== USER_EMAIL ==="] ++ (env "home_user_email").take 1 ++
      ["=== USER_NAME ==="] ++ (env "home_user_name").take 1 ++
      ["=== DEVICE_SN ==="] ++
        (if (env "home_device_sn_structured").isEmpty then
          env "home_device_sn_heuristic"
        else env "home_device_sn_structured") ++
      ["=== PAIR_UUID ==="] ++ (env "home_pair_uuid").take 1 ++
      ["=== IOT_URL ==="] ++ (env "home_iot_url").take 1 ++
      ["=== DEVICE_UUID ==="] ++ (env "home_device_uuid").take 1 ∧
    (run DjiFly.extractBatch env).2.1 =
      ["=== USER_TOKEN ==="] ++ (env "fly_user_token").take 1 ++
      ["=== USER_ID ==="] ++ env "fly_user_id_user_id" ++
        env "fly_user_id_uid" ++ env "fly_user_id_member_uid" ++
      ["=== USER_EMAIL ==="] ++ (env "fly_user_email").take 1 ++
      ["=== USER_NAME ==="] ++ env "fly_user_name_nickname" ++
        (env "fly_user_name_djiuser").take 1 ++
      ["=== DRONE_SN ==="] ++ env "fly_drone_sn_sn" ++
        env "fly_drone_sn_serial_number" ++ env "fly_drone_sn_device_sn" ++
      ["=== DRONE_MODEL ==="] ++ env "fly_drone_model_model_name" ++
        env "fly_drone_model_product_type" ++
        (env "fly_drone_model_dji").take 1 ++
      ["=== ACCOUNT_TOKEN ==="] ++ env "fly_account_token" ++
      ["=== OPENAPI_TOKEN ==="] ++ env "fly_openapi_token" ++
      ["=== API_URLS ==="] ++ (env "fly_api_urls").take 20 ++
      ["=== DEVICE_UUID ==="] ++ (env "fly_device_uuid").take 3 := by
  constructor
  · cases henv : env "home_device_sn_structured" with
    | nil => simp [DjiHome.extractBatch, andChain, List.foldl, henv]
    | cons a t => simp [DjiHome.extractBatch, andChain, List.foldl, henv]
  · simp [DjiFly.extractBatch, seqChain, List.foldl]

/-! ## Claim C4 and C5: the readiness stage -/

theorem emuLoopAux_bound (env : EmuEnv) :
    ∀ rem n, (emuLoopAux env rem n).2 ≤ 5 * (n + rem) ∧
      ((emuLoopAux env rem n).1 = .timeout →
        (emuLoopAux env rem n).2 = 5 * (n + rem)) := by
  intro rem
  induction rem with
  | zero =>
    intro n
    refine ⟨?_, fun _ => ?_⟩ <;> simp [emuLoopAux]
  | succ rem ih =>
    intro n
    have ihn := ih (n + 1)
    have heq : 5 * (n + 1 + rem) = 5 * (n + (rem + 1)) := by ring
    rw [heq] at ihn
    rw [emuLoopAux]
    by_cases h1 : env.procExited n
    · rw [if_pos h1]
      exact ⟨by show 5 * n ≤ 5 * (n + (rem + 1)); omega, fun hc => by simp at hc⟩
    · rw [if_neg h1]
      by_cases h2 : (env.devEmu n && env.devDevice n) = true
      · rw [if_pos h2]
        by_cases h3 : env.devOffline n
        · rw [if_pos h3]; exact ihn
        · rw [if_neg h3]
          cases hb : env.bootCompleted n with
          | none => exact ihn
          | some b =>
            dsimp only
            by_cases h4 : b ≠ "" ∧ pyStrip b = "1"
            · rw [if_pos h4]
              exact ⟨by show 5 * n + 5 ≤ 5 * (n + (rem + 1)); omega,
                fun hc => by simp at hc⟩
            · rw [if_neg h4]; exact ihn
      · rw [if_neg h2]; exact ihn

/-- C4: the polling loop always terminates within the 420-second budget
(counting the sleeps it performs), reports exactly one of the three outcomes
`ready`/`died`/`timeout`, and reaches `timeout` exactly when the whole
budget has elapsed. -/
theorem c4_readiness_bounded (env : EmuEnv) :
    (emuLoop env).2 ≤ 420 ∧
      ((emuLoop env).1 = .timeout → (emuLoop env).2 = 420) ∧
      ((emuLoop env).1 = .ready ∨ (emuLoop env).1 = .died ∨
        (emuLoop env).1 = .timeout) := by
  have h := emuLoopAux_bound env 84 0
  refine ⟨by simpa [emuLoop] using h.1, by simpa [emuLoop] using h.2, ?_⟩
  cases hc : (emuLoop env).1 <;> simp

/-- C4 witness: with a channel that never reports the device, the loop times
out at exactly the 420-second budget. -/
theorem c4_readiness_bounded_witness :
    (emuLoop ⟨fun _ => false, fun _ => false, fun _ => false, fun _ => false,
        fun _ => none⟩).2 = 420 :=
  (c4_readiness_bounded _).2.1 (by decide)

/-- C5: if the initial `adb devices` query already reports an emulator in
state `device` (the already-online-and-booted case) and the pre-loop
filesystem checks pass, `start_emulator` returns success immediately, with
zero polling time. -/
theorem c5_readiness_idempotent (e : StartEnv)
    (h1 : e.sysImageOk = true) (h2 : e.emuBinOk = true)
    (h3 : e.initDevEmu = true) (h4 : e.initDevDevice = true) :
    start_emulator e = (.alreadyRunning, 0) := by
  simp [start_emulator, h1, h2, h3, h4]

/-- C5 witness. -/
theorem c5_readiness_idempotent_witness :
    start_emulator ⟨true, true, true, true,
        ⟨fun _ => false, fun _ => false, fun _ => false, fun _ => false,
          fun _ => none⟩⟩ = (.alreadyRunning, 0) :=
  c5_readiness_idempotent _ rfl rfl rfl rfl

/-! ## Claim C8: APK location -/

/-- C8 counterexample: with two APKs neither exact nor fuzzy, the Home
script still picks the first one (the claim would require the ambiguous
choice to abort); and with a single unambiguous non-matching APK the Fly
script aborts instead of falling back to it. -/
theorem c8_counterexample :
    DjiHome.install_apk ["alpha.apk", "beta.apk"] = some "alpha.apk" ∧
      DjiFly.install_apk ["zzz.apk"] = none := by decide

/-- C8 amended: each script tries the exact expected name first, then the
first fuzzy match; with no match the Home script falls back to the first
APK present regardless of ambiguity and aborts only when no APK exists at
all, while the Fly script aborts whenever neither the exact nor a fuzzy
match exists, even if other APKs are present. -/
theorem c8_amended (files : List String) :
    (DjiHome.install_apk files = none ↔ files = []) ∧
    (∀ g, DjiHome.install_apk files = some g → g ∈ files) ∧
    ("com.dji.home.apk" ∈ files →
      DjiHome.install_apk files = some "com.dji.home.apk") ∧
    ("com.dji.home.apk" ∉ files → ∀ g, files.find? DjiHome.fuzzyApk = some g →
      DjiHome.install_apk files = some g) ∧
    ("com.dji.home.apk" ∉ files → (∀ g ∈ files, DjiHome.fuzzyApk g = false) →
      DjiHome.install_apk files = files.head?) ∧
    ("dji.go.v5.apk" ∈ files →
      DjiFly.install_apk files = some "dji.go.v5.apk") ∧
    ("dji.go.v5.apk" ∉ files → ∀ g, files.find? DjiFly.fuzzyApk = some g →
      DjiFly.install_apk files = some g) ∧
    ("dji.go.v5.apk" ∉ files → (∀ g ∈ files, DjiFly.fuzzyApk g = false) →
      DjiFly.install_apk files = none) := by
  refine ⟨?_, ?_, ?_, ?_, ?_, ?_, ?_, ?_⟩
  · cases files with
    | nil => simp [DjiHome.install_apk]
    | cons f fs =>
      by_cases h : "com.dji.home.apk" ∈ f :: fs
      · simp [DjiHome.install_apk, h]
      · cases hf : (f :: fs).find? DjiHome.fuzzyApk with
        | some g => simp [DjiHome.install_apk, h, hf]
        | none => simp [DjiHome.install_apk, h, hf]
  · intro g hg
    by_cases h : "com.dji.home.apk" ∈ files
    · simp [DjiHome.install_apk, h] at hg
      subst hg; exact h
    · cases hf : files.find? DjiHome.fuzzyApk with
      | some x =>
        simp [DjiHome.install_apk, h, hf] at hg
        subst hg; exact List.mem_of_find?_eq_some hf
      | none =>
        cases files with
        | nil => simp [DjiHome.install_apk, h, hf] at hg
        | cons f fs =>
          simp [DjiHome.install_apk, h, hf] at hg
          subst hg; exact List.mem_cons_self f fs
  · intro h; simp [DjiHome.install_apk, h]
  · intro h g hg
    simp [DjiHome.install_apk, h, hg]
  · intro h hall
    have hf : files.find? DjiHome.fuzzyApk = none :=
      List.find?_eq_none.mpr fun x hx => by simp [hall x hx]
    cases files with
    | nil => simp [DjiHome.install_apk, h, hf]
    | cons f fs => simp [DjiHome.install_apk, h, hf]
  · intro h; simp [DjiFly.install_apk, h]
  · intro h g hg
    simp [DjiFly.install_apk, h, hg]
  · intro h hall
    have hf : files.find? DjiFly.fuzzyApk = none :=
      List.find?_eq_none.mpr fun x hx => by simp [hall x hx]
    simp [DjiFly.install_apk, h, hf]

/-- C8 witness for the amended claim: with the exact name absent each script
picks the first fuzzy match; two non-matching APKs make the Home script
install the first one, while non-matching APKs make the Fly script abort. -/
theorem c8_amended_witness :
    DjiHome.install_apk ["a.apk", "dji_home.apk"] = some "dji_home.apk" ∧
    DjiFly.install_apk ["b.apk", "my_dji_fly.apk"] = some "my_dji_fly.apk" ∧
    DjiHome.install_apk ["x.apk", "y.apk"] =
        (["x.apk", "y.apk"] : List String).head? ∧
      DjiFly.install_apk ["x.apk", "y.apk"] = none :=
  ⟨(c8_amended ["a.apk", "dji_home.apk"]).2.2.2.1 (by decide) "dji_home.apk"
      (by decide),
   (c8_amended ["b.apk", "my_dji_fly.apk"]).2.2.2.2.2.2.1 (by decide)
      "my_dji_fly.apk" (by decide),
   (c8_amended ["x.apk", "y.apk"]).2.2.2.2.1 (by decide) (by decide),
   (c8_amended ["x.apk", "y.apk"]).2.2.2.2.2.2.2 (by decide) (by decide)⟩

/-! ## Parser characterization lemmas -/

theorem tagged_snd_ne_empty :
    ∀ (ls : List String) (cur : Option String) (p : String × String),
      p ∈ tagged ls cur → p.2 ≠ "" := by
  intro ls
  induction ls with
  | nil => intro cur p hp; simp [tagged] at hp
  | cons l ls ih =>
    intro cur p hp
    simp only [tagged] at hp
    by_cases hh : isHeader (pyStrip l) = true
    · rw [if_pos hh] at hp
      exact ih _ p hp
    · rw [if_neg hh] at hp
      cases cur with
      | none => exact ih _ p hp
      | some j =>
        dsimp only at hp
        by_cases hg : pyStrip l ≠ "" ∧ j ≠ ""
        · rw [if_pos hg] at hp
          rcases List.mem_cons.mp hp with h | h
          · subst h; exact hg.1
          · exact ih _ p h
        · rw [if_neg hg] at hp
          exact ih _ p hp

theorem flyGo_scalar {k : String} (hk : k ∉ DjiFly.listKeys) :
    ∀ (ls : List String) (cur : Option String) (creds : Creds),
      dictGet? (DjiFly.parseGo ls cur creds) k =
        match dictGet? creds k with
        | some v => some v
        | none =>
          (((tagged ls cur).filterMap fun p =>
            if p.1 = k then some p.2 else none).head?).map PyVal.vStr := by
  intro ls
  induction ls with
  | nil =>
    intro cur creds
    simp only [DjiFly.parseGo, tagged]
    cases h : dictGet? creds k <;> simp
  | cons l ls ih =>
    intro cur creds
    simp only [DjiFly.parseGo, tagged]
    by_cases hh : isHeader (pyStrip l) = true
    · rw [if_pos hh, if_pos hh]
      exact ih _ creds
    · rw [if_neg hh, if_neg hh]
      cases cur with
      | none => dsimp only; exact ih _ creds
      | some j =>
        dsimp only
        by_cases hg : pyStrip l ≠ "" ∧ j ≠ ""
        · rw [if_pos hg, if_pos hg]
          simp only [List.filterMap_cons]
          by_cases hj : j ∈ DjiFly.listKeys
          · rw [if_pos hj]
            have hkj : ¬(j = k) := fun he => hk (he ▸ hj)
            rw [ih _ _, dictGet?_set_ne _ _ (fun he => hkj he.symm)]
            simp only [hkj, if_false]
          · rw [if_neg hj]
            by_cases hs : (dictGet? creds j).isSome = true
            · rw [if_pos hs]
              by_cases hjk : j = k
              · subst hjk
                rw [ih _ _]
                obtain ⟨v, hv⟩ := Option.isSome_iff_exists.mp hs
                rw [hv]
              · rw [ih _ _]
                simp only [hjk, if_false]
            · rw [if_neg hs]
              by_cases hjk : j = k
              · subst hjk
                rw [ih _ _, dictGet?_set_self]
                have hnone : dictGet? creds j = none :=
                  Option.not_isSome_iff_eq_none.mp (by simpa using hs)
                rw [hnone]
                simp
              · rw [ih _ _, dictGet?_set_ne _ _ (fun he => hjk he.symm)]
                simp only [hjk, if_false]
        · rw [if_neg hg, if_neg hg]
          exact ih _ creds

theorem flyGo_list {k : String} (hk : k ∈ DjiFly.listKeys) :
    ∀ (ls : List String) (cur : Option String) (creds : Creds),
      (∀ v, dictGet? creds k = some v → ∃ l0, v = PyVal.vList l0) →
      dictGet? (DjiFly.parseGo ls cur creds) k =
        if (dictGet? creds k).isSome = true ∨
           ((tagged ls cur).filterMap fun p =>
             if p.1 = k then some p.2 else none) ≠ [] then
          some (.vList (firstDedup (curList creds k)
            ((tagged ls cur).filterMap fun p =>
              if p.1 = k then some p.2 else none)))
        else none := by
  intro ls
  induction ls with
  | nil =>
    intro cur creds hWT
    simp only [DjiFly.parseGo, tagged]
    cases h : dictGet? creds k with
    | none => simp [h]
    | some v =>
      obtain ⟨l0, rfl⟩ := hWT v h
      simp [h, curList, firstDedup]
  | cons l ls ih =>
    intro cur creds hWT
    simp only [DjiFly.parseGo, tagged]
    by_cases hh : isHeader (pyStrip l) = true
    · rw [if_pos hh, if_pos hh]
      exact ih _ creds hWT
    · rw [if_neg hh, if_neg hh]
      cases cur with
      | none => dsimp only; exact ih _ creds hWT
      | some j =>
        dsimp only
        by_cases hg : pyStrip l ≠ "" ∧ j ≠ ""
        · rw [if_pos hg, if_pos hg]
          simp only [List.filterMap_cons]
          by_cases hj : j ∈ DjiFly.listKeys
          · rw [if_pos hj]
            by_cases hjk : j = k
            · subst hjk
              rw [ih _ _ (fun v hv => by
                rw [dictGet?_set_self] at hv
                exact ⟨_, (Option.some_inj.mp hv).symm⟩)]
              have hcl :
                  curList (dictSet creds j
                    (PyVal.vList (pushNew (curList creds j) (pyStrip l)))) j =
                    pushNew (curList creds j) (pyStrip l) := by
                simp [curList, dictGet?_set_self]
              simp only [dictGet?_set_self, Option.isSome_some, true_or, if_true,
                if_pos rfl, curList, pushNew, firstDedup, List.foldl_cons]
              simp [curList, pushNew, firstDedup] at hcl ⊢
            · rw [ih _ _ (fun v hv => by
                rw [dictGet?_set_ne _ _ (fun he => hjk he.symm)] at hv
                exact hWT v hv)]
              rw [dictGet?_set_ne _ _ (fun he => hjk he.symm)]
              have hcl :
                  curList (dictSet creds j (PyVal.vList
                    (pushNew (curList creds j) (pyStrip l)))) k =
                    curList creds k := by
                simp [curList, dictGet?_set_ne _ _ (fun he => hjk he.symm)]
              simp only [hjk, if_false, curList, pushNew] at hcl ⊢
              rw [hcl]
          · rw [if_neg hj]
            have hjk : ¬(j = k) := fun he => hj (he ▸ hk)
            by_cases hs : (dictGet? creds j).isSome = true
            · rw [if_pos hs]
              rw [ih _ _ hWT]
              simp only [hjk, if_false]
            · rw [if_neg hs]
              rw [ih _ _ (fun v hv => by
                rw [dictGet?_set_ne _ _ (fun he => hjk he.symm)] at hv
                exact hWT v hv)]
              rw [dictGet?_set_ne _ _ (fun he => hjk he.symm)]
              have hcl :
                  curList (dictSet creds j (PyVal.vStr (pyStrip l))) k =
                    curList creds k := by
                simp [curList, dictGet?_set_ne _ _ (fun he => hjk he.symm)]
              simp only [hjk, if_false] at hcl ⊢
              rw [hcl]
        · rw [if_neg hg, if_neg hg]
          exact ih _ creds hWT

theorem pushNew_nodup {a : List String} {l : String} (h : a.Nodup) :
    (pushNew a l).Nodup := by
  unfold pushNew
  by_cases hm : l ∈ a
  · rw [if_pos hm]; exact h
  · rw [if_neg hm]
    simp [List.nodup_append, h, hm]

theorem firstDedup_nodup :
    ∀ (ls : List String) (acc : List String), acc.Nodup →
      (firstDedup acc ls).Nodup := by
  intro ls
  induction ls with
  | nil => intro acc h; exact h
  | cons l ls ih =>
    intro acc h
    rw [firstDedup, List.foldl_cons]
    exact ih (pushNew acc l) (pushNew_nodup h)

theorem homeGo_untouched {k : String} :
    ∀ (ls : List String) (cur : Option String) (creds : Creds),
      (∀ l ∈ ls, ¬(isHeader (pyStrip l) = true ∧ headerKey (pyStrip l) = k)) →
      cur ≠ some k →
      dictGet? (DjiHome.parseGo ls cur creds) k = dictGet? creds k := by
  intro ls
  induction ls with
  | nil => intro cur creds _ _; rw [DjiHome.parseGo]
  | cons l ls ih =>
    intro cur creds hall hcur
    have hall' : ∀ x ∈ ls, ¬(isHeader (pyStrip x) = true ∧ headerKey (pyStrip x) = k) :=
      fun x hx => hall x (List.mem_cons_of_mem l hx)
    simp only [DjiHome.parseGo]
    by_cases hh : isHeader (pyStrip l) = true
    · rw [if_pos hh]
      have hne : headerKey (pyStrip l) ≠ k :=
        fun he => hall l (List.mem_cons_self l ls) ⟨hh, he⟩
      exact ih _ creds hall' (fun he => hne (Option.some_inj.mp he))
    · rw [if_neg hh]
      cases cur with
      | none => dsimp only; exact ih _ creds hall' (by simp)
      | some j =>
        dsimp only
        have hjk : j ≠ k := fun he => hcur (by rw [he])
        by_cases hg : pyStrip l ≠ "" ∧ j ≠ ""
        · rw [if_pos hg]
          rw [ih _ _ hall' (by simp),
            dictGet?_set_ne _ _ (fun he => hjk he.symm)]
        · rw [if_neg hg]
          exact ih _ creds hall' hcur

theorem tagged_nokey {k : String} :
    ∀ (ls : List String) (cur : Option String),
      (∀ l ∈ ls, ¬(isHeader (pyStrip l) = true ∧ headerKey (pyStrip l) = k)) →
      cur ≠ some k →
      (tagged ls cur).filterMap
        (fun p => if p.1 = k then some p.2 else none) = [] := by
  intro ls
  induction ls with
  | nil => intro cur _ _; rw [tagged]; rfl
  | cons l ls ih =>
    intro cur hall hcur
    have hall' : ∀ x ∈ ls, ¬(isHeader (pyStrip x) = true ∧ headerKey (pyStrip x) = k) :=
      fun x hx => hall x (List.mem_cons_of_mem l hx)
    simp only [tagged]
    by_cases hh : isHeader (pyStrip l) = true
    · rw [if_pos hh]
      have hne : headerKey (pyStrip l) ≠ k :=
        fun he => hall l (List.mem_cons_self l ls) ⟨hh, he⟩
      exact ih _ hall' (fun he => hne (Option.some_inj.mp he))
    · rw [if_neg hh]
      cases cur with
      | none => dsimp only; exact ih _ hall' (by simp)
      | some j =>
        dsimp only
        have hjk : j ≠ k := fun he => hcur (by rw [he])
        by_cases hg : pyStrip l ≠ "" ∧ j ≠ ""
        · rw [if_pos hg]
          simp only [List.filterMap_cons, hjk, if_false]
          exact ih _ hall' hcur
        · rw [if_neg hg]
          exact ih _ hall' hcur

theorem tagged_cons_filter {k : String} (l : String) (ls : List String)
    (c : Option String) (hck : c ≠ some k)
    (hh : ¬isHeader (pyStrip l) = true) :
    (tagged (l :: ls) c).filterMap
        (fun p : String × String => if p.1 = k then some p.2 else none) =
      (tagged ls c).filterMap
        (fun p : String × String => if p.1 = k then some p.2 else none) := by
  simp only [tagged]
  rw [if_neg hh]
  cases c with
  | none => rfl
  | some j =>
    dsimp only
    have hjk : j ≠ k := fun he => hck (by rw [he])
    by_cases hg : pyStrip l ≠ "" ∧ j ≠ ""
    · rw [if_pos hg]
      simp only [List.filterMap_cons, hjk, if_false]
    · rw [if_neg hg]

theorem tagged_filter_cur {k : String} :
    ∀ (ls : List String) (cur cur' : Option String),
      cur ≠ some k → cur' ≠ some k →
      (tagged ls cur).filterMap (fun p => if p.1 = k then some p.2 else none) =
        (tagged ls cur').filterMap
          (fun p => if p.1 = k then some p.2 else none) := by
  intro ls
  induction ls with
  | nil => intro cur cur' _ _; rw [tagged, tagged]
  | cons l ls ih =>
    intro cur cur' hc hc'
    by_cases hh : isHeader (pyStrip l) = true
    · simp only [tagged]
      rw [if_pos hh, if_pos hh]
    · rw [tagged_cons_filter l ls cur hc hh,
        tagged_cons_filter l ls cur' hc' hh]
      exact ih cur cur' hc hc'

theorem homeGo_section {k : String} (hk : k ≠ "") :
    ∀ (ls : List String) (creds : Creds),
      (∀ l ∈ ls, ¬(isHeader (pyStrip l) = true ∧ headerKey (pyStrip l) = k)) →
      dictGet? (DjiHome.parseGo ls (some k) creds) k =
        match (((tagged ls (some k)).filterMap
            fun p => if p.1 = k then some p.2 else none).head?) with
        | some v => some (.vStr v)
        | none => dictGet? creds k := by
  intro ls
  induction ls with
  | nil => intro creds _; rw [DjiHome.parseGo, tagged]; rfl
  | cons l ls ih =>
    intro creds hall
    have hall' : ∀ x ∈ ls, ¬(isHeader (pyStrip x) = true ∧ headerKey (pyStrip x) = k) :=
      fun x hx => hall x (List.mem_cons_of_mem l hx)
    simp only [DjiHome.parseGo, tagged]
    by_cases hh : isHeader (pyStrip l) = true
    · rw [if_pos hh, if_pos hh]
      have hne : headerKey (pyStrip l) ≠ k :=
        fun he => hall l (List.mem_cons_self l ls) ⟨hh, he⟩
      rw [homeGo_untouched _ _ _ hall' (fun he => hne (Option.some_inj.mp he)),
        tagged_nokey _ _ hall' (fun he => hne (Option.some_inj.mp he))]
      rfl
    · rw [if_neg hh, if_neg hh]
      try dsimp only
      by_cases hg : pyStrip l ≠ "" ∧ k ≠ ""
      · rw [if_pos hg, if_pos hg]
        rw [homeGo_untouched _ _ _ hall' (by simp), dictGet?_set_self]
        simp
      · rw [if_neg hg, if_neg hg]
        exact ih creds hall'

theorem homeGo_char {k : String} (hk : k ≠ "") :
    ∀ (ls : List String) (cur : Option String) (creds : Creds),
      cur ≠ some k → dictGet? creds k = none →
      (ls.countP fun l =>
        isHeader (pyStrip l) && (headerKey (pyStrip l) == k)) ≤ 1 →
      dictGet? (DjiHome.parseGo ls cur creds) k =
        (((tagged ls cur).filterMap
          fun p => if p.1 = k then some p.2 else none).head?).map PyVal.vStr := by
  intro ls
  induction ls with
  | nil =>
    intro cur creds _ hnone _
    rw [DjiHome.parseGo, tagged, hnone]
    rfl
  | cons l ls ih =>
    intro cur creds hcur hnone hcount
    rw [List.countP_cons] at hcount
    simp only [DjiHome.parseGo, tagged]
    by_cases hh : isHeader (pyStrip l) = true
    · by_cases hkey : headerKey (pyStrip l) = k
      · rw [if_pos hh, if_pos hh, hkey]
        have hl : (isHeader (pyStrip l) && (headerKey (pyStrip l) == k)) = true := by
          simp [hh, hkey]
        rw [hl] at hcount
        rw [if_pos rfl] at hcount
        have hzero : (ls.countP fun x =>
            isHeader (pyStrip x) && (headerKey (pyStrip x) == k)) = 0 := by
          omega
        have hall : ∀ x ∈ ls,
            ¬(isHeader (pyStrip x) = true ∧ headerKey (pyStrip x) = k) := by
          intro x hx hcon
          have := List.countP_eq_zero.mp hzero x hx
          simp [hcon.1, hcon.2] at this
        rw [homeGo_section hk ls creds hall]
        cases hhd : (((tagged ls (some k)).filterMap
            fun p => if p.1 = k then some p.2 else none).head?) with
        | none => simp [hnone]
        | some v => simp
      · rw [if_pos hh, if_pos hh]
        have hl : (isHeader (pyStrip l) && (headerKey (pyStrip l) == k)) = false := by
          simp [hkey]
        rw [hl] at hcount
        exact ih _ creds (fun he => hkey (Option.some_inj.mp he)) hnone
          (by simpa using hcount)
    · rw [if_neg hh, if_neg hh]
      have hl : (isHeader (pyStrip l) && (headerKey (pyStrip l) == k)) = false := by
        cases hih : isHeader (pyStrip l)
        · simp
        · exact absurd hih hh
      rw [hl] at hcount
      cases cur with
      | none =>
        try dsimp only
        exact ih _ creds (by simp) hnone (by simpa using hcount)
      | some j =>
        try dsimp only
        have hjk : j ≠ k := fun he => hcur (by rw [he])
        by_cases hg : pyStrip l ≠ "" ∧ j ≠ ""
        · rw [if_pos hg, if_pos hg]
          simp only [List.filterMap_cons, hjk, if_false]
          rw [ih _ _ (by simp)
            (by rw [dictGet?_set_ne _ _ (fun he => hjk he.symm)]; exact hnone)
            (by simpa using hcount)]
          rw [tagged_filter_cur ls none (some j) (by simp)
            (fun he => hjk (Option.some_inj.mp he))]
        · rw [if_neg hg, if_neg hg]
          exact ih _ creds hcur hnone (by simpa using hcount)

theorem homeGo_key_source :
    ∀ (ls : List String) (cur : Option String) (creds : Creds) (k : String),
      (dictGet? (DjiHome.parseGo ls cur creds) k).isSome = true →
      (dictGet? creds k).isSome = true ∨ cur = some k ∨
        ∃ l ∈ ls, isHeader (pyStrip l) = true ∧ headerKey (pyStrip l) = k := by
  intro ls
  induction ls with
  | nil =>
    intro cur creds k h
    rw [DjiHome.parseGo] at h
    exact Or.inl h
  | cons l ls ih =>
    intro cur creds k h
    simp only [DjiHome.parseGo] at h
    by_cases hh : isHeader (pyStrip l) = true
    · rw [if_pos hh] at h
      rcases ih _ _ _ h with h1 | h2 | h3
      · exact Or.inl h1
      · exact Or.inr (Or.inr ⟨l, List.mem_cons_self l ls,
          hh, Option.some_inj.mp h2⟩)
      · obtain ⟨x, hx, hxx⟩ := h3
        exact Or.inr (Or.inr ⟨x, List.mem_cons_of_mem l hx, hxx⟩)
    · rw [if_neg hh] at h
      cases cur with
      | none =>
        rcases ih _ _ _ h with h1 | h2 | h3
        · exact Or.inl h1
        · cases h2
        · obtain ⟨x, hx, hxx⟩ := h3
          exact Or.inr (Or.inr ⟨x, List.mem_cons_of_mem l hx, hxx⟩)
      | some j =>
        dsimp only at h
        by_cases hg : pyStrip l ≠ "" ∧ j ≠ ""
        · rw [if_pos hg] at h
          rcases ih _ _ _ h with h1 | h2 | h3
          · by_cases hjk : j = k
            · exact Or.inr (Or.inl (by rw [hjk]))
            · rw [dictGet?_set_ne _ _ (fun he => hjk he.symm)] at h1
              exact Or.inl h1
          · cases h2
          · obtain ⟨x, hx, hxx⟩ := h3
            exact Or.inr (Or.inr ⟨x, List.mem_cons_of_mem l hx, hxx⟩)
        · rw [if_neg hg] at h
          rcases ih _ _ _ h with h1 | h2 | h3
          · exact Or.inl h1
          · exact Or.inr (Or.inl h2)
          · obtain ⟨x, hx, hxx⟩ := h3
            exact Or.inr (Or.inr ⟨x, List.mem_cons_of_mem l hx, hxx⟩)

theorem homeGo_vals :
    ∀ (ls : List String) (cur : Option String) (creds : Creds),
      (∀ k0 v0, dictGet? creds k0 = some v0 → ∃ s, v0 = PyVal.vStr s ∧ s ≠ "") →
      ∀ k v, dictGet? (DjiHome.parseGo ls cur creds) k = some v →
        ∃ s, v = PyVal.vStr s ∧ s ≠ "" := by
  intro ls
  induction ls with
  | nil =>
    intro cur creds hWT k v h
    rw [DjiHome.parseGo] at h
    exact hWT k v h
  | cons l ls ih =>
    intro cur creds hWT k v h
    simp only [DjiHome.parseGo] at h
    by_cases hh : isHeader (pyStrip l) = true
    · rw [if_pos hh] at h
      exact ih _ _ hWT k v h
    · rw [if_neg hh] at h
      cases cur with
      | none => exact ih _ _ hWT k v h
      | some j =>
        dsimp only at h
        by_cases hg : pyStrip l ≠ "" ∧ j ≠ ""
        · rw [if_pos hg] at h
          refine ih _ _ ?_ k v h
          intro k0 v0 h0
          by_cases hj0 : k0 = j
          · subst hj0
            rw [dictGet?_set_self] at h0
            exact ⟨pyStrip l, (Option.some_inj.mp h0).symm, hg.1⟩
          · rw [dictGet?_set_ne _ _ hj0] at h0
            exact hWT k0 v0 h0
        · rw [if_neg hg] at h
          exact ih _ _ hWT k v h

theorem flyParse_scalar_val (out : List String) (k : String) (v : PyVal)
    (hk : k ∉ DjiFly.listKeys) (h : dictGet? (DjiFly.parse out) k = some v) :
    ∃ s, v = PyVal.vStr s ∧ s ≠ "" := by
  rw [DjiFly.parse] at h
  rw [flyGo_scalar hk out none []] at h
  have hnil : dictGet? ([] : Creds) k = none := rfl
  rw [hnil] at h
  dsimp only at h
  cases hhd : (((tagged out none).filterMap
      fun p => if p.1 = k then some p.2 else none).head?) with
  | none => rw [hhd] at h; cases h
  | some s =>
    rw [hhd] at h
    have hv : v = PyVal.vStr s := (Option.some_inj.mp h).symm
    refine ⟨s, hv, ?_⟩
    have hmem : s ∈ (tagged out none).filterMap
        (fun p => if p.1 = k then some p.2 else none) := by
      cases hl : ((tagged out none).filterMap
          fun p => if p.1 = k then some p.2 else none) with
      | nil => rw [hl] at hhd; cases hhd
      | cons a t =>
        rw [hl] at hhd
        have has : a = s := Option.some_inj.mp hhd
        rw [← has]
        exact List.mem_cons_self a t
    obtain ⟨p, hp, hps⟩ := List.mem_filterMap.mp hmem
    by_cases hp1 : p.1 = k
    · rw [if_pos hp1] at hps
      have hne := tagged_snd_ne_empty out none p hp
      rw [Option.some_inj.mp hps] at hne
      exact hne
    · rw [if_neg hp1] at hps; cases hps

theorem blockAuth_get (c : Creds) (r1 : Option DjiHome.AuthResp) (k : String)
    (h1 : k ≠ "api_working") (h2 : k ≠ "mqtt_domain")
    (h3 : k ≠ "mqtt_port") (h4 : k ≠ "mqtt_user_uuid") :
    dictGet? (DjiHome.blockAuth c r1) k = dictGet? c k := by
  cases r1 with
  | none =>
    simp only [DjiHome.blockAuth]
    rw [dictGet?_set_ne _ _ h1]
  | some a =>
    simp only [DjiHome.blockAuth]
    by_cases hc : a.resultCode = some 0
    · rw [if_pos hc]
      cases a.dataField with
      | none => rw [dictGet?_set_ne _ _ h1]
      | some md =>
        rw [dictGet?_set_ne _ _ h1, dictGet?_set_ne _ _ h4,
          dictGet?_set_ne _ _ h3, dictGet?_set_ne _ _ h2]
    · rw [if_neg hc]
      rw [dictGet?_set_ne _ _ h1]

theorem blockHomes_get (c : Creds) (r2 : Option DjiHome.HomesResp) (k : String)
    (h5 : k ≠ "device_sn") (h6 : k ≠ "device_name") :
    dictGet? (DjiHome.blockHomes c r2) k = dictGet? c k := by
  simp only [DjiHome.blockHomes]
  by_cases ht : truthy (dictGet c "device_sn") = true
  · rw [if_pos ht]
  · rw [if_neg ht]
    cases r2 with
    | none => rfl
    | some h =>
      dsimp only
      by_cases hc : h.resultCode = some 0
      · rw [if_pos hc]
        cases DjiHome.firstDevice h.homes with
        | none => rfl
        | some d =>
          rw [dictGet?_set_ne _ _ h6, dictGet?_set_ne _ _ h5]
      · rw [if_neg hc]

theorem blockHomes_skip (c : Creds) (r2 : Option DjiHome.HomesResp)
    (ht : truthy (dictGet c "device_sn") = true) :
    DjiHome.blockHomes c r2 = c := by
  simp only [DjiHome.blockHomes]
  rw [if_pos ht]

theorem home_test_api_preserve (c : Creds) (r1 : Option DjiHome.AuthResp)
    (r2 : Option DjiHome.HomesResp) (k : String) (v : PyVal)
    (hk : k ∈ DjiHome.fields) (hv : dictGet? c k = some v)
    (htr : truthy v = true) :
    dictGet? (DjiHome.test_api c r1 r2) k = some v := by
  simp only [DjiHome.test_api]
  cases htok : truthy (dictGet c "user_token") with
  | false =>
    rw [if_pos (by decide : (!false) = true)]
    exact hv
  | true =>
    rw [if_neg (by decide)]
    simp only [DjiHome.fields, List.mem_cons, List.mem_singleton,
      List.not_mem_nil, or_false] at hk
    rcases hk with rfl | rfl | rfl | rfl | rfl | rfl | rfl | rfl
    all_goals
      first
      | (rw [blockHomes_get _ _ _ (by decide) (by decide),
            blockAuth_get _ _ _ (by decide) (by decide) (by decide) (by decide)]
         exact hv)
      | (have hA := blockAuth_get c r1 "device_sn" (by decide) (by decide)
            (by decide) (by decide)
         rw [hv] at hA
         have ht : truthy (dictGet (DjiHome.blockAuth c r1) "device_sn") = true := by
           rw [dictGet, hA]
           exact htr
         rw [blockHomes_skip _ r2 ht]
         exact hA)

theorem blockMember_get (c : Creds) (r : Option DjiFly.MemberResp) (k : String)
    (h1 : k ≠ "account_verified") (h2 : k ≠ "user_name")
    (h3 : k ≠ "user_id") (h4 : k ≠ "user_email") :
    dictGet? (DjiFly.blockMember c r) k = dictGet? c k := by
  cases r with
  | none => rfl
  | some a =>
    simp only [DjiFly.blockMember]
    by_cases hc : a.resultCode = some 0 ∨ a.code = some 0
    · rw [if_pos hc]
      have s3 : ∀ d : Creds,
          dictGet? (if truthy a.member.email = true then
            dictSet d "user_email" a.member.email else d) k = dictGet? d k := by
        intro d
        by_cases he : truthy a.member.email = true
        · rw [if_pos he, dictGet?_set_ne _ _ h4]
        · rw [if_neg he]
      have s2 : ∀ d : Creds,
          dictGet? (if truthy a.member.uid = true then
            dictSet d "user_id" (.vStr (pyStr a.member.uid)) else d) k =
            dictGet? d k := by
        intro d
        by_cases hu : truthy a.member.uid = true
        · rw [if_pos hu, dictGet?_set_ne _ _ h3]
        · rw [if_neg hu]
      have s1 : ∀ d : Creds,
          dictGet? (if truthy a.member.nickname = true then
            dictSet d "user_name" a.member.nickname else d) k = dictGet? d k := by
        intro d
        by_cases hn : truthy a.member.nickname = true
        · rw [if_pos hn, dictGet?_set_ne _ _ h2]
        · rw [if_neg hn]
      rw [s3, s2, s1, dictGet?_set_ne _ _ h1]
    · rw [if_neg hc]

theorem devLoop_get (ds : List DjiFly.Device) :
    ∀ (c : Creds) (k : String), k ≠ "drone_sn" → k ≠ "drone_model" →
      dictGet? (DjiFly.devLoop c ds) k = dictGet? c k := by
  induction ds with
  | nil => intro c k _ _; rw [DjiFly.devLoop]
  | cons d ds ih =>
    intro c k h1 h2
    simp only [DjiFly.devLoop]
    by_cases hsn : truthy (pyOr d.sn d.serial_number) = true
    · rw [if_pos hsn]
      rw [ih _ k h1 h2]
      by_cases hm : truthy (pyOr (pyOr d.model_name d.product_type) d.name) = true
      · rw [if_pos hm, dictGet?_set_ne _ _ h2]
        by_cases hd : (!truthy (dictGet c "drone_sn")) = true
        · rw [if_pos hd, dictGet?_set_ne _ _ h1]
        · rw [if_neg hd]
      · rw [if_neg hm]
        by_cases hd : (!truthy (dictGet c "drone_sn")) = true
        · rw [if_pos hd, dictGet?_set_ne _ _ h1]
        · rw [if_neg hd]
    · rw [if_neg hsn]
      exact ih _ k h1 h2

theorem devLoop_sn (ds : List DjiFly.Device) :
    ∀ (c : Creds) (v : PyVal), dictGet? c "drone_sn" = some v →
      truthy v = true →
      dictGet? (DjiFly.devLoop c ds) "drone_sn" = some v := by
  induction ds with
  | nil => intro c v hv _; rw [DjiFly.devLoop]; exact hv
  | cons d ds ih =>
    intro c v hv htr
    simp only [DjiFly.devLoop]
    have hd : (!truthy (dictGet c "drone_sn")) = false := by
      rw [dictGet, hv]
      simp [htr]
    have hdn : ¬((!truthy (dictGet c "drone_sn")) = true) := by
      rw [hd]; decide
    by_cases hsn : truthy (pyOr d.sn d.serial_number) = true
    · rw [if_pos hsn]
      by_cases hm : truthy (pyOr (pyOr d.model_name d.product_type) d.name) = true
      · rw [if_pos hm, if_neg hdn]
        exact ih _ v (by rw [dictGet?_set_ne _ _ (by decide)]; exact hv) htr
      · rw [if_neg hm, if_neg hdn]
        exact ih _ v hv htr
    · rw [if_neg hsn]
      exact ih _ v hv htr

theorem blockDevices_get (c : Creds) (r : Option DjiFly.DevResp) (k : String)
    (h1 : k ≠ "drone_sn") (h2 : k ≠ "drone_model") :
    dictGet? (DjiFly.blockDevices c r) k = dictGet? c k := by
  cases r with
  | none => rfl
  | some a =>
    simp only [DjiFly.blockDevices]
    by_cases hc : a.resultCode = some 0 ∨ a.code = some 0
    · rw [if_pos hc]
      cases a.devices with
      | none => rfl
      | some ds => exact devLoop_get ds c k h1 h2
    · rw [if_neg hc]

theorem blockDevices_sn (c : Creds) (r : Option DjiFly.DevResp) (v : PyVal)
    (hv : dictGet? c "drone_sn" = some v) (htr : truthy v = true) :
    dictGet? (DjiFly.blockDevices c r) "drone_sn" = some v := by
  cases r with
  | none => exact hv
  | some a =>
    simp only [DjiFly.blockDevices]
    by_cases hc : a.resultCode = some 0 ∨ a.code = some 0
    · rw [if_pos hc]
      cases a.devices with
      | none => exact hv
      | some ds => exact devLoop_sn ds c v hv htr
    · rw [if_neg hc]
      exact hv

theorem blockFlights_get (c : Creds) (r : Option DjiFly.FlightResp) (k : String)
    (h1 : k ≠ "flight_records_accessible") (h2 : k ≠ "recent_flights_count") :
    dictGet? (DjiFly.blockFlights c r) k = dictGet? c k := by
  cases r with
  | none =>
    simp only [DjiFly.blockFlights]
    rw [dictGet?_set_ne _ _ h1]
  | some a =>
    simp only [DjiFly.blockFlights]
    by_cases hc : a.status200 = true ∧ (a.resultCode = some 0 ∨ a.code = some 0)
    · rw [if_pos hc]
      cases a.flightsCount with
      | none => rw [dictGet?_set_ne _ _ h1]
      | some n => rw [dictGet?_set_ne _ _ h2, dictGet?_set_ne _ _ h1]
    · rw [if_neg hc]
      rw [dictGet?_set_ne _ _ h1]

theorem fly_test_api_preserve (c : Creds) (m : Option DjiFly.MemberResp)
    (d : Option DjiFly.DevResp) (f : Option DjiFly.FlightResp)
    (k : String) (v : PyVal)
    (hk : k ∈ ["user_token", "drone_sn", "account_token", "openapi_token",
      "api_urls", "device_uuid"])
    (hv : dictGet? c k = some v)
    (hsn : k = "drone_sn" → truthy v = true) :
    dictGet? (DjiFly.test_api c m d f) k = some v := by
  simp only [DjiFly.test_api]
  cases htok : truthy (dictGet c "user_token") with
  | false =>
    rw [if_pos (by decide : (!false) = true)]
    exact hv
  | true =>
    rw [if_neg (by decide)]
    simp only [List.mem_cons, List.mem_singleton, List.not_mem_nil,
      or_false] at hk
    rcases hk with rfl | rfl | rfl | rfl | rfl | rfl
    all_goals
      first
      | (rw [blockFlights_get _ _ _ (by decide) (by decide),
            blockDevices_get _ _ _ (by decide) (by decide),
            blockMember_get _ _ _ (by decide) (by decide) (by decide)
              (by decide)]
         exact hv)
      | (have hM := blockMember_get c m "drone_sn" (by decide) (by decide)
            (by decide) (by decide)
         rw [hv] at hM
         rw [blockFlights_get _ _ _ (by decide) (by decide)]
         exact blockDevices_sn _ d v hM (hsn rfl))

/-! ## Claim C6 and C10: result parsing -/

theorem flyParse_scalar_char (out : List String) (k : String)
    (hk : k ∉ DjiFly.listKeys) :
    dictGet? (DjiFly.parse out) k =
      ((sectionLines out k).head?).map PyVal.vStr := by
  rw [DjiFly.parse, flyGo_scalar hk out none []]
  rfl

theorem flyParse_list_char (out : List String) (k : String)
    (hk : k ∈ DjiFly.listKeys) :
    dictGet? (DjiFly.parse out) k =
      if sectionLines out k = [] then none
      else some (.vList (firstDedup [] (sectionLines out k))) := by
  rw [DjiFly.parse,
    flyGo_list hk out none [] (fun v hv => by cases hv)]
  have hnil : (dictGet? ([] : Creds) k).isSome = false := rfl
  rw [hnil]
  by_cases hs : sectionLines out k = []
  · rw [if_pos hs]
    rw [sectionLines] at hs
    rw [if_neg (by rw [hs]; decide)]
  · rw [if_neg hs]
    rw [sectionLines] at hs
    rw [if_pos (by simp [hs])]
    rw [curList]
    rfl

theorem flyParse_list_nodup (out : List String) (k : String) (ls : List String)
    (h : dictGet? (DjiFly.parse out) k = some (.vList ls)) : ls.Nodup := by
  by_cases hk : k ∈ DjiFly.listKeys
  · rw [flyParse_list_char out k hk] at h
    by_cases hs : sectionLines out k = []
    · rw [if_pos hs] at h; cases h
    · rw [if_neg hs] at h
      have hx := Option.some_inj.mp h
      rw [PyVal.vList.injEq] at hx
      rw [← hx]
      exact firstDedup_nodup _ [] List.nodup_nil
  · rw [flyParse_scalar_char out k hk] at h
    cases hhd : (sectionLines out k).head? with
    | none => rw [hhd] at h; cases h
    | some s => rw [hhd] at h; simp at h

theorem homeParse_char (out : List String) (k : String) (hk : k ≠ "")
    (hcount : (out.countP fun l =>
      isHeader (pyStrip l) && (headerKey (pyStrip l) == k)) ≤ 1) :
    dictGet? (DjiHome.parse out) k =
      ((sectionLines out k).head?).map PyVal.vStr := by
  rw [DjiHome.parse]
  rw [homeGo_char hk out none [] (by simp) rfl hcount]
  rfl

/-- C6: the delimited-output parsers track the current field per section
header; the Fly parser keeps, for a scalar field, the first non-empty line
of the field's section(s), and for a list field the distinct lines in order
of appearance (so list fields are duplicate-free); the Home parser (whose
batch emits each header once, the `countP ≤ 1` hypothesis) keeps the first
non-empty line of the field's section. -/
theorem c6_result_parsing :
    (∀ (out : List String) (k : String), k ∉ DjiFly.listKeys →
      dictGet? (DjiFly.parse out) k =
        ((sectionLines out k).head?).map PyVal.vStr) ∧
    (∀ (out : List String) (k : String), k ∈ DjiFly.listKeys →
      dictGet? (DjiFly.parse out) k =
        if sectionLines out k = [] then none
        else some (.vList (firstDedup [] (sectionLines out k)))) ∧
    (∀ (out : List String) (k : String) (ls : List String),
      dictGet? (DjiFly.parse out) k = some (.vList ls) → ls.Nodup) ∧
    (∀ (out : List String) (k : String), k ≠ "" →
      (out.countP fun l =>
        isHeader (pyStrip l) && (headerKey (pyStrip l) == k)) ≤ 1 →
      dictGet? (DjiHome.parse out) k =
        ((sectionLines out k).head?).map PyVal.vStr) :=
  ⟨flyParse_scalar_char, flyParse_list_char, flyParse_list_nodup,
    homeParse_char⟩

/-- C6 witness: concrete outputs for a scalar field with a fallback line, a
list field with an exact repeat, the duplicate-freeness of the parsed list,
and a Home section with two candidate lines. -/
theorem c6_result_parsing_witness :
    dictGet? (DjiFly.parse ["=== USER_ID ===", "42", "43"]) "user_id" =
      ((sectionLines ["=== USER_ID ===", "42", "43"] "user_id").head?).map
        PyVal.vStr ∧
    dictGet? (DjiFly.parse ["=== API_URLS ===", "u1", "u1", "u2"]) "api_urls" =
      (if sectionLines ["=== API_URLS ===", "u1", "u1", "u2"] "api_urls" = []
       then none
       else some (.vList (firstDedup []
         (sectionLines ["=== API_URLS ===", "u1", "u1", "u2"] "api_urls")))) ∧
    (["u1", "u2"] : List String).Nodup ∧
    dictGet? (DjiHome.parse ["=== USER_TOKEN ===", "US_a", "US_b"])
        "user_token" =
      ((sectionLines ["=== USER_TOKEN ===", "US_a", "US_b"]
        "user_token").head?).map PyVal.vStr :=
  ⟨c6_result_parsing.1 _ _ (by decide),
   c6_result_parsing.2.1 _ _ (by decide),
   c6_result_parsing.2.2.1 ["=== API_URLS ===", "u1", "u1", "u2"] "api_urls"
     ["u1", "u2"] (by decide),
   c6_result_parsing.2.2.2 _ _ (by decide) (by decide)⟩

theorem homeParse_drop_lead :
    ∀ (pre rest : List String),
      (∀ l ∈ pre, ¬isHeader (pyStrip l) = true) →
      DjiHome.parse (pre ++ rest) = DjiHome.parse rest := by
  intro pre
  induction pre with
  | nil => intro rest _; rfl
  | cons l pre ih =>
    intro rest hall
    have hh := hall l (List.mem_cons_self l pre)
    rw [DjiHome.parse, List.cons_append]
    simp only [DjiHome.parseGo]
    rw [if_neg hh]
    exact ih rest fun x hx => hall x (List.mem_cons_of_mem l hx)

theorem flyParse_drop_lead :
    ∀ (pre rest : List String),
      (∀ l ∈ pre, ¬isHeader (pyStrip l) = true) →
      DjiFly.parse (pre ++ rest) = DjiFly.parse rest := by
  intro pre
  induction pre with
  | nil => intro rest _; rfl
  | cons l pre ih =>
    intro rest hall
    have hh := hall l (List.mem_cons_self l pre)
    rw [DjiFly.parse, List.cons_append]
    simp only [DjiFly.parseGo]
    rw [if_neg hh]
    exact ih rest fun x hx => hall x (List.mem_cons_of_mem l hx)

/-- C10: both result parsers silently discard non-empty lines appearing
before the first section header (`current_key` starts as `None`), and the
Home parser resets `current_key` after recording the first value line of a
section, so a further line in the same section is dropped — removing it
does not change the parse at all. -/
theorem c10_parser_implicit :
    (∀ (pre rest : List String),
      (∀ l ∈ pre, ¬isHeader (pyStrip l) = true) →
      DjiHome.parse (pre ++ rest) = DjiHome.parse rest ∧
        DjiFly.parse (pre ++ rest) = DjiFly.parse rest) ∧
    (∀ (hdr a b : String) (rest : List String),
      isHeader (pyStrip hdr) = true → headerKey (pyStrip hdr) ≠ "" →
      ¬isHeader (pyStrip a) = true → pyStrip a ≠ "" →
      ¬isHeader (pyStrip b) = true → pyStrip b ≠ "" →
      DjiHome.parse (hdr :: a :: b :: rest) =
        DjiHome.parse (hdr :: a :: rest)) := by
  constructor
  · intro pre rest hall
    exact ⟨homeParse_drop_lead pre rest hall,
      flyParse_drop_lead pre rest hall⟩
  · intro hdr a b rest hhd hkey hna ha hnb hb
    have step_hdr : ∀ tail : List String,
        DjiHome.parseGo (hdr :: tail) none [] =
          DjiHome.parseGo tail (some (headerKey (pyStrip hdr))) [] := by
      intro tail
      simp only [DjiHome.parseGo]
      rw [if_pos hhd]
    have step_a : ∀ (tail : List String) (K : String), K ≠ "" →
        DjiHome.parseGo (a :: tail) (some K) [] =
          DjiHome.parseGo tail none (dictSet [] K (.vStr (pyStrip a))) := by
      intro tail K hK
      simp only [DjiHome.parseGo]
      rw [if_neg hna]
      try dsimp only
      rw [if_pos (And.intro ha hK)]
    have step_b : ∀ (tail : List String) (c : Creds),
        DjiHome.parseGo (b :: tail) none c = DjiHome.parseGo tail none c := by
      intro tail c
      simp only [DjiHome.parseGo]
      rw [if_neg hnb]
    rw [DjiHome.parse, DjiHome.parse, step_hdr, step_hdr,
      step_a _ _ hkey, step_a _ _ hkey, step_b]

/-- C10 witness: a concrete junk prefix is discarded and a concrete second
value line inside a Home section is dropped. -/
theorem c10_parser_implicit_witness :
    (DjiHome.parse (["junk"] ++ ["=== USER_ID ===", "7"]) =
        DjiHome.parse ["=== USER_ID ===", "7"] ∧
      DjiFly.parse (["junk"] ++ ["=== USER_ID ===", "7"]) =
        DjiFly.parse ["=== USER_ID ===", "7"]) ∧
    DjiHome.parse ["=== USER_ID ===", "7", "8"] =
      DjiHome.parse ["=== USER_ID ===", "7"] :=
  ⟨c10_parser_implicit.1 ["junk"] ["=== USER_ID ===", "7"] (by decide),
   c10_parser_implicit.2 "=== USER_ID ===" "7" "8" [] (by decide) (by decide)
     (by decide) (by decide) (by decide) (by decide)⟩

/-! ## Claim C2: first-writer-wins under enrichment -/

/-- C2 counterexample: a pattern-extracted Fly record already holding
`user_email = "a@b.com"` has that field overwritten by `test_api` when the
member-info API returns an email — enrichment does not leave populated
fields unchanged. -/
theorem c2_counterexample :
    dictGet? (DjiFly.parse
        ["=== USER_TOKEN ===", "US_tok", "=== USER_EMAIL ===", "a@b.com"])
      "user_email" = some (.vStr "a@b.com") ∧
    dictGet? (DjiFly.test_api
        (DjiFly.parse
          ["=== USER_TOKEN ===", "US_tok", "=== USER_EMAIL ===", "a@b.com"])
        (some ⟨some 0, none, ⟨.vNone, .vNone, .vStr "c@d.com"⟩⟩) none none)
      "user_email" = some (.vStr "c@d.com") := by decide

/-- C2 amended: the Home `test_api` preserves every field of a
pattern-extracted record (also when run twice); the Fly `test_api`
preserves `user_token`, `drone_sn` (guarded by an explicit only-if-empty
check), `account_token`, `openapi_token`, `api_urls` and `device_uuid`
(also when run twice), but may overwrite `user_name`, `user_id`,
`user_email` and `drone_model` with API-returned values. -/
theorem c2_amended :
    (∀ (out : List String) (r1 r1' : Option DjiHome.AuthResp)
      (r2 r2' : Option DjiHome.HomesResp) (k : String) (v : PyVal),
      (∀ l ∈ out, isHeader (pyStrip l) = true →
        headerKey (pyStrip l) ∈ DjiHome.fields) →
      dictGet? (DjiHome.parse out) k = some v →
      dictGet? (DjiHome.test_api (DjiHome.parse out) r1 r2) k = some v ∧
        dictGet? (DjiHome.test_api
          (DjiHome.test_api (DjiHome.parse out) r1 r2) r1' r2') k = some v) ∧
    (∀ (out : List String) (m m' : Option DjiFly.MemberResp)
      (d d' : Option DjiFly.DevResp) (f f' : Option DjiFly.FlightResp)
      (k : String) (v : PyVal),
      k ∈ ["user_token", "drone_sn", "account_token", "openapi_token",
        "api_urls", "device_uuid"] →
      dictGet? (DjiFly.parse out) k = some v →
      dictGet? (DjiFly.test_api (DjiFly.parse out) m d f) k = some v ∧
        dictGet? (DjiFly.test_api
          (DjiFly.test_api (DjiFly.parse out) m d f) m' d' f') k = some v) := by
  constructor
  · intro out r1 r1' r2 r2' k v hhead hv
    have hv' : dictGet? (DjiHome.parseGo out none []) k = some v := by
      rw [← DjiHome.parse]; exact hv
    have hks := homeGo_key_source out none [] k (by rw [hv']; rfl)
    rcases hks with h1 | h2 | h3
    · simp [dictGet?] at h1
    · cases h2
    · obtain ⟨l, hl, hh, hkey⟩ := h3
      have hfield : k ∈ DjiHome.fields := hkey ▸ hhead l hl hh
      have hval := homeGo_vals out none []
        (fun k0 v0 h0 => by simp [dictGet?] at h0) k v hv'
      obtain ⟨s, rfl, hs⟩ := hval
      have htr : truthy (PyVal.vStr s) = true := by simp [truthy, hs]
      have p1 := home_test_api_preserve (DjiHome.parse out) r1 r2 k _
        hfield hv htr
      exact ⟨p1, home_test_api_preserve _ r1' r2' k _ hfield p1 htr⟩
  · intro out m m' d d' f f' k v hk hv
    have hsn : k = "drone_sn" → truthy v = true := by
      intro he
      subst he
      obtain ⟨s, rfl, hs⟩ := flyParse_scalar_val out "drone_sn" v
        (by decide) hv
      simp [truthy, hs]
    have p1 := fly_test_api_preserve _ m d f k v hk hv hsn
    exact ⟨p1, fly_test_api_preserve _ m' d' f' k v hk p1 hsn⟩

/-- C2 amended witness: the token extracted by each parser survives an
enrichment run with failed network calls. -/
theorem c2_amended_witness :
    dictGet? (DjiHome.test_api (DjiHome.parse ["=== USER_TOKEN ===", "US_t"])
        none none) "user_token" = some (.vStr "US_t") ∧
    dictGet? (DjiFly.test_api (DjiFly.parse ["=== USER_TOKEN ===", "US_t"])
        none none none) "user_token" = some (.vStr "US_t") :=
  ⟨(c2_amended.1 ["=== USER_TOKEN ===", "US_t"] none none none none
      "user_token" (.vStr "US_t") (by decide) (by decide)).1,
   (c2_amended.2 ["=== USER_TOKEN ===", "US_t"] none none none none none none
      "user_token" (.vStr "US_t") (by decide) (by decide)).1⟩

/-! ## Claim C9: enrichment failures are non-fatal -/

/-- C9: with a valid token, if every enrichment call fails (network error or
non-zero result code), `test_api` still returns the record: the only change
is the failure flag (`api_working = False` in Home,
`flight_records_accessible = False` in Fly), every locally extracted field
keeps its value, enrichment-derived fields stay absent, and `main`'s tail
still exits 0. -/
theorem c9_enrichment_failures :
    (∀ (c : Creds) (r1 : Option DjiHome.AuthResp)
      (r2 : Option DjiHome.HomesResp),
      truthy (dictGet c "user_token") = true →
      (r1 = none ∨ ∃ a, r1 = some a ∧ a.resultCode ≠ some 0) →
      (r2 = none ∨ ∃ h, r2 = some h ∧ h.resultCode ≠ some 0) →
      DjiHome.test_api c r1 r2 = dictSet c "api_working" (.vBool false) ∧
        DjiHome.mainTail (some (DjiHome.test_api c r1 r2)) = 0) ∧
    (∀ (c : Creds) (m : Option DjiFly.MemberResp) (d : Option DjiFly.DevResp)
      (f : Option DjiFly.FlightResp),
      truthy (dictGet c "user_token") = true →
      (m = none ∨ ∃ a, m = some a ∧ a.resultCode ≠ some 0 ∧ a.code ≠ some 0) →
      (d = none ∨ ∃ a, d = some a ∧ a.resultCode ≠ some 0 ∧ a.code ≠ some 0) →
      (f = none ∨ ∃ a, f = some a ∧ (a.status200 = false ∨
        (a.resultCode ≠ some 0 ∧ a.code ≠ some 0))) →
      DjiFly.test_api c m d f =
          dictSet c "flight_records_accessible" (.vBool false) ∧
        DjiFly.mainTail (some (DjiFly.test_api c m d f)) = 0) := by
  constructor
  · intro c r1 r2 htok hf1 hf2
    have hA : DjiHome.blockAuth c r1 = dictSet c "api_working" (.vBool false) := by
      rcases hf1 with rfl | ⟨a, rfl, hc⟩
      · rfl
      · simp only [DjiHome.blockAuth]
        rw [if_neg hc]
    have hB : DjiHome.blockHomes (dictSet c "api_working" (.vBool false)) r2 =
        dictSet c "api_working" (.vBool false) := by
      simp only [DjiHome.blockHomes]
      by_cases ht : truthy (dictGet (dictSet c "api_working" (.vBool false))
          "device_sn") = true
      · rw [if_pos ht]
      · rw [if_neg ht]
        rcases hf2 with rfl | ⟨h, rfl, hc⟩
        · rfl
        · dsimp only
          rw [if_neg hc]
    have hEq : DjiHome.test_api c r1 r2 =
        dictSet c "api_working" (.vBool false) := by
      simp only [DjiHome.test_api]
      rw [htok]
      rw [if_neg (by decide)]
      rw [hA, hB]
    refine ⟨hEq, ?_⟩
    rw [hEq]
    simp [DjiHome.mainTail]
  · intro c m d f htok hfm hfd hff
    have hM : DjiFly.blockMember c m = c := by
      rcases hfm with rfl | ⟨a, rfl, hc⟩
      · rfl
      · have hcond : ¬(a.resultCode = some 0 ∨ a.code = some 0) := by
          rintro (h | h)
          · exact hc.1 h
          · exact hc.2 h
        simp only [DjiFly.blockMember]
        rw [if_neg hcond]
    have hD : DjiFly.blockDevices c d = c := by
      rcases hfd with rfl | ⟨a, rfl, hc⟩
      · rfl
      · have hcond : ¬(a.resultCode = some 0 ∨ a.code = some 0) := by
          rintro (h | h)
          · exact hc.1 h
          · exact hc.2 h
        simp only [DjiFly.blockDevices]
        rw [if_neg hcond]
    have hF : DjiFly.blockFlights c f =
        dictSet c "flight_records_accessible" (.vBool false) := by
      rcases hff with rfl | ⟨a, rfl, hc⟩
      · rfl
      · have hcond : ¬(a.status200 = true ∧
            (a.resultCode = some 0 ∨ a.code = some 0)) := by
          rintro ⟨h200, hcode⟩
          rcases hc with h | ⟨h1, h2⟩
          · rw [h] at h200; cases h200
          · rcases hcode with h | h
            · exact h1 h
            · exact h2 h
        simp only [DjiFly.blockFlights]
        rw [if_neg hcond]
    have hEq : DjiFly.test_api c m d f =
        dictSet c "flight_records_accessible" (.vBool false) := by
      simp only [DjiFly.test_api]
      rw [htok]
      rw [if_neg (by decide)]
      rw [hM, hD, hF]
    refine ⟨hEq, ?_⟩
    rw [hEq]
    simp [DjiFly.mainTail]

/-- C9 witness: a record holding only the token, with every enrichment call
failing with a network error. -/
theorem c9_enrichment_failures_witness :
    DjiHome.test_api [("user_token", PyVal.vStr "US_t")] none none =
      dictSet [("user_token", PyVal.vStr "US_t")] "api_working"
        (.vBool false) ∧
    DjiFly.mainTail (some (DjiFly.test_api [("user_token", PyVal.vStr "US_t")]
      none none none)) = 0 :=
  ⟨(c9_enrichment_failures.1 [("user_token", PyVal.vStr "US_t")] none none
      (by decide) (Or.inl rfl) (Or.inl rfl)).1,
   (c9_enrichment_failures.2 [("user_token", PyVal.vStr "US_t")] none none
      none (by decide) (Or.inl rfl) (Or.inl rfl) (Or.inl rfl)).2⟩

/-! ## Claim C7: validity policy of `extract_credentials` -/

/-- C7: each `extract_credentials` returns a credential record exactly when
the parsed `user_token` is truthy; a missing/failed capture artifact, an
empty extraction output, or an absent token all yield `None` (an ordinary
return, `.ok none` in the Fly model, which separates returning from
raising) rather than an exception. -/
theorem c7_validity_policy :
    (∀ (e : DjiHome.ExtractEnv) (c : Creds),
      DjiHome.extract_credentials e = some c →
      truthy (dictGet c "user_token") = true) ∧
    (∀ e : DjiHome.ExtractEnv,
      (e.fileCheck = none ∨ e.fileCheck = some "" ∨
        ∃ s, e.fileCheck = some s ∧ strContains s "No such file" = true) →
      DjiHome.extract_credentials e = none) ∧
    (∀ (e : DjiHome.ExtractEnv) (out : String), e.batchOut = some out →
      truthy (dictGet (DjiHome.parse (pySplitNl out.toList))
        "user_token") = false →
      DjiHome.extract_credentials e = none) ∧
    (∀ (e : DjiHome.ExtractEnv) (out : String),
      DjiHome.truthyS e.pidOut = true →
      (∃ s, e.fileCheck = some s ∧ s ≠ "" ∧
        strContains s "No such file" = false) →
      e.batchOut = some out → out ≠ "" →
      truthy (dictGet (DjiHome.parse (pySplitNl out.toList))
        "user_token") = true →
      DjiHome.extract_credentials e =
        some (DjiHome.parse (pySplitNl out.toList))) ∧
    (∀ (e : DjiFly.ExtractEnv) (c : Creds),
      DjiFly.extract_credentials e = .ok (some c) →
      truthy (dictGet c "user_token") = true) ∧
    (∀ e : DjiFly.ExtractEnv,
      (e.fileCheck = none ∨ e.fileCheck = some "" ∨
        ∃ s, e.fileCheck = some s ∧ strContains s "No such file" = true) →
      DjiFly.extract_credentials e = .ok none) ∧
    (∀ (e : DjiFly.ExtractEnv) (out : String), e.batch = .completed out →
      truthy (dictGet (DjiFly.parse (pySplitNl (pyStrip out).toList))
        "user_token") = false →
      DjiFly.extract_credentials e = .ok none) ∧
    (∀ (e : DjiFly.ExtractEnv) (out : String),
      DjiHome.truthyS e.pidOut = true →
      (∃ s, e.fileCheck = some s ∧ s ≠ "" ∧
        strContains s "No such file" = false) →
      e.batch = .completed out → pyStrip out ≠ "" →
      truthy (dictGet (DjiFly.parse (pySplitNl (pyStrip out).toList))
        "user_token") = true →
      DjiFly.extract_credentials e =
        .ok (some (DjiFly.parse (pySplitNl (pyStrip out).toList)))) := by
  refine ⟨?_, ?_, ?_, ?_, ?_, ?_, ?_, ?_⟩
  · intro e c h
    simp only [DjiHome.extract_credentials] at h
    by_cases h1 : (!DjiHome.truthyS e.pidOut) = true
    · rw [if_pos h1] at h; cases h
    · rw [if_neg h1] at h
      cases hfc : e.fileCheck with
      | none => rw [hfc] at h; cases h
      | some fc =>
        rw [hfc] at h
        dsimp only at h
        by_cases h2 : fc = ""
        · rw [if_pos h2] at h; cases h
        · rw [if_neg h2] at h
          by_cases h3 : strContains fc "No such file" = true
          · rw [if_pos h3] at h; cases h
          · rw [if_neg h3] at h
            cases hbo : e.batchOut with
            | none => rw [hbo] at h; cases h
            | some out =>
              rw [hbo] at h
              dsimp only at h
              by_cases h4 : out = ""
              · rw [if_pos h4] at h; cases h
              · rw [if_neg h4] at h
                by_cases h5 : truthy (dictGet
                    (DjiHome.parse (pySplitNl out.toList)) "user_token") = true
                · rw [if_pos h5] at h
                  rw [← Option.some_inj.mp h]
                  exact h5
                · rw [if_neg h5] at h; cases h
  · intro e hbad
    simp only [DjiHome.extract_credentials]
    by_cases h1 : (!DjiHome.truthyS e.pidOut) = true
    · rw [if_pos h1]
    · rw [if_neg h1]
      rcases hbad with hfc | hfc | ⟨s, hfc, hs⟩
      · rw [hfc]
      · rw [hfc]
        dsimp only
        rw [if_pos rfl]
      · rw [hfc]
        dsimp only
        by_cases h2 : s = ""
        · rw [if_pos h2]
        · rw [if_neg h2, if_pos hs]
  · intro e out hbo htok
    simp only [DjiHome.extract_credentials]
    by_cases h1 : (!DjiHome.truthyS e.pidOut) = true
    · rw [if_pos h1]
    · rw [if_neg h1]
      cases hfc : e.fileCheck with
      | none => rfl
      | some fc =>
        dsimp only
        by_cases h2 : fc = ""
        · rw [if_pos h2]
        · rw [if_neg h2]
          by_cases h3 : strContains fc "No such file" = true
          · rw [if_pos h3]
          · rw [if_neg h3, hbo]
            dsimp only
            by_cases h4 : out = ""
            · rw [if_pos h4]
            · rw [if_neg h4]
              rw [if_neg (by rw [htok]; decide)]
  · intro e out hpid ⟨s, hfc, hs, hns⟩ hbo hout htok
    simp only [DjiHome.extract_credentials]
    rw [if_neg (by rw [hpid]; decide)]
    rw [hfc]
    dsimp only
    rw [if_neg hs, if_neg (by rw [hns]; decide), hbo]
    dsimp only
    rw [if_neg hout, if_pos htok]
  · intro e c h
    simp only [DjiFly.extract_credentials] at h
    by_cases h1 : (!DjiHome.truthyS e.pidOut) = true
    · rw [if_pos h1] at h; cases h
    · rw [if_neg h1] at h
      cases hfc : e.fileCheck with
      | none => rw [hfc] at h; cases h
      | some fc =>
        rw [hfc] at h
        dsimp only at h
        by_cases h2 : fc = ""
        · rw [if_pos h2] at h; cases h
        · rw [if_neg h2] at h
          by_cases h3 : strContains fc "No such file" = true
          · rw [if_pos h3] at h; cases h
          · rw [if_neg h3] at h
            cases hb : e.batch with
            | timedOut => rw [hb] at h; cases h
            | completed out =>
              rw [hb] at h
              dsimp only at h
              by_cases h4 : pyStrip out = ""
              · rw [if_pos h4] at h; cases h
              · rw [if_neg h4] at h
                by_cases h5 : truthy (dictGet (DjiFly.parse
                    (pySplitNl (pyStrip out).toList)) "user_token") = true
                · rw [if_pos h5] at h
                  have := Except.ok.inj h
                  rw [← Option.some_inj.mp this]
                  exact h5
                · rw [if_neg h5] at h; cases h
  · intro e hbad
    simp only [DjiFly.extract_credentials]
    by_cases h1 : (!DjiHome.truthyS e.pidOut) = true
    · rw [if_pos h1]
    · rw [if_neg h1]
      rcases hbad with hfc | hfc | ⟨s, hfc, hs⟩
      · rw [hfc]
      · rw [hfc]
        dsimp only
        rw [if_pos rfl]
      · rw [hfc]
        dsimp only
        by_cases h2 : s = ""
        · rw [if_pos h2]
        · rw [if_neg h2, if_pos hs]
  · intro e out hb htok
    simp only [DjiFly.extract_credentials]
    by_cases h1 : (!DjiHome.truthyS e.pidOut) = true
    · rw [if_pos h1]
    · rw [if_neg h1]
      cases hfc : e.fileCheck with
      | none => rfl
      | some fc =>
        dsimp only
        by_cases h2 : fc = ""
        · rw [if_pos h2]
        · rw [if_neg h2]
          by_cases h3 : strContains fc "No such file" = true
          · rw [if_pos h3]
          · rw [if_neg h3, hb]
            dsimp only
            by_cases h4 : pyStrip out = ""
            · rw [if_pos h4]
            · rw [if_neg h4]
              rw [if_neg (by rw [htok]; decide)]
  · intro e out hpid ⟨s, hfc, hs, hns⟩ hb hout htok
    simp only [DjiFly.extract_credentials]
    rw [if_neg (by rw [hpid]; decide)]
    rw [hfc]
    dsimp only
    rw [if_neg hs, if_neg (by rw [hns]; decide), hb]
    dsimp only
    rw [if_neg hout, if_pos htok]

/-- C7 witness: a run with a found pid, a present artifact, and an output
carrying the token returns the parsed record; a run whose artifact check
reports "No such file" returns `None`. -/
theorem c7_validity_policy_witness :
    DjiHome.extract_credentials
        ⟨some "123", some "-rw- heap.bin", some "=== USER_TOKEN ===\nUS_t"⟩ =
      some (DjiHome.parse
        (pySplitNl ("=== USER_TOKEN ===\nUS_t").toList)) ∧
    DjiFly.extract_credentials
        ⟨some "123", some "ls: No such file or directory", .completed ""⟩ =
      .ok none :=
  ⟨c7_validity_policy.2.2.2.1
      ⟨some "123", some "-rw- heap.bin", some "=== USER_TOKEN ===\nUS_t"⟩
      "=== USER_TOKEN ===\nUS_t" (by decide)
      ⟨"-rw- heap.bin", rfl, by decide, by decide⟩ rfl (by decide) (by decide),
   c7_validity_policy.2.2.2.2.2.1
      ⟨some "123", some "ls: No such file or directory", .completed ""⟩
      (Or.inr (Or.inr ⟨"ls: No such file or directory", rfl, by decide⟩))⟩
